import Mathlib

/-!
Verification of the ValueSet-Tools core against its specification.

The Python sources (vsac_wrangler/main.py, vsac_wrangler/vsac_api.py,
enclave_wrangler/main.py) are shallowly embedded below: pure row-building
code becomes Lean functions over lists, the module-level mutable state of
the VSAC authenticator becomes explicit state passing, Python exceptions
(IndexError, KeyError, the XML parser's ExpatError) become an Except monad,
and ambient effects (datetime.now, uuid4, randint, HTTP responses) become
explicit parameters / oracles.
-/

/-- Python exceptions that the embedded code can raise. -/
inductive PyError
  | indexError
  | keyError
  | expatError
deriving DecidableEq, Repr

namespace VST

/-- Python list indexing lst[i] with a non-negative index: IndexError when
out of range. -/
def pyIndex (l : List α) (i : Nat) : Except PyError α :=
  match l.get? i with
  | some a => Except.ok a
  | none => Except.error PyError.indexError

/-- Python str.split(sep) for a NON-empty separator, over character lists:
scan left to right, cut at each occurrence of the separator.  The recursion
is structural on a fuel argument (one unit per scanned character) so that
the kernel can evaluate concrete splits; any fuel of at least the length of
the scanned list gives the scan's result (pySplitAux_congr below). -/
def pySplitAux (s : Char) (ss : List Char) : Nat → List Char → List (List Char)
  | _, [] => [[]]
  | 0, l => [l]
  | fuel + 1, c :: rest =>
    if (s :: ss).isPrefixOf (c :: rest) then
      [] :: pySplitAux s ss fuel (rest.drop ss.length)
    else
      match pySplitAux s ss fuel rest with
      | [] => [[c]]
      | h :: t => (c :: h) :: t

/-- Python str.split(sep) on character lists.  Python raises ValueError on an
empty separator; that case never occurs in the embedded code, and is mapped
to the identity split here. -/
def pySplit (str sep : List Char) : List (List Char) :=
  match sep with
  | [] => [str]
  | s :: ss => pySplitAux s ss str.length str

/-- Python str.split(sep) on strings. -/
def pySplitStr (str sep : String) : List String :=
  (pySplit str.data sep.data).map String.mk

/-- Substring-occurrence test: does sep occur (contiguously) in l? -/
def hasOcc (s : Char) (ss : List Char) : List Char → Bool
  | [] => false
  | c :: rest => (s :: ss).isPrefixOf (c :: rest) || hasOcc s ss rest

/-- Values stored in an output row (a Python dict with string keys). -/
inductive Val
  | str (s : String)
  | bool (b : Bool)
  | int (n : Nat)
deriving DecidableEq, Repr

/-- An output row: a Python dict, embedded as an insertion-ordered
association list. -/
abbrev Row := List (String × Val)

/-- One element of a VSAC ns0:ConceptList (code, code system, display name). -/
structure Concept where
  code : String
  codeSystemName : String
  displayName : String
deriving DecidableEq, Repr

/-- One VSAC ns0:DescribedValueSet record, with the attributes the embedded
code reads. -/
structure ValueSet where
  displayName : String
  oid : String
  version : String
  source : String
  defType : String
  purpose : String
  revisionDate : String
  concepts : List Concept
deriving DecidableEq, Repr

/-- Insertion-ordered Python-dict insertion: overwrite in place if the key
exists, append otherwise. -/
def dictInsert (m : List (String × α)) (k : String) (v : α) : List (String × α) :=
  match m with
  | [] => [(k, v)]
  | (k', v') :: rest => if k' = k then (k, v) :: rest else (k', v') :: dictInsert rest k v

/-- The code_system_codes grouping step shared by get_vsac_csv and
get_palantir_csv: append each concept's code to the list for its code
system, creating the entry on first sight (main.py lines 140-145 and
299-305). -/
def addCode (m : List (String × List String)) (cs code : String) : List (String × List String) :=
  match m with
  | [] => [(cs, [code])]
  | (k, v) :: rest => if k = cs then (k, v ++ [code]) :: rest else (k, v) :: addCode rest cs code

/-- Group a concept list by code system, in insertion order. -/
def buildCodeMap (concepts : List Concept) : List (String × List String) :=
  concepts.foldl (fun m c => addCode m c.codeSystemName c.code) []

/-- mapE is the embedding of a Python for-loop that appends to an output
list and can raise: it short-circuits on the first error. -/
def mapE (f : α → Except PyError β) : List α → Except PyError (List β)
  | [] => Except.ok []
  | a :: l =>
    match f a with
    | Except.error e => Except.error e
    | Except.ok b =>
      match mapE f l with
      | Except.error e => Except.error e
      | Except.ok bs => Except.ok (b :: bs)

/-- The per-clause paren-stripping of the purposes2 loop (main.py lines
136-139 and 294-298): i1 is 1 when the clause starts with a paren, i2 drops
a final paren; indexing p[len(p)-1] raises IndexError on an empty clause. -/
def stripParens (p : String) : Except PyError String :=
  match p.data with
  | [] => Except.error PyError.indexError
  | c :: cs =>
    let i1 : Nat := if c = '(' then 1 else 0
    let i2 : Nat :=
      if (c :: cs).getLast (List.cons_ne_nil c cs) = ')' then (c :: cs).length - 1
      else (c :: cs).length
    Except.ok (String.mk (((c :: cs).drop i1).take (i2 - i1)))

/-- The purposes2 list: split the purpose annotation on the literal
separator and strip parens from each clause. -/
def purposes2Of (purpose : String) : Except PyError (List String) :=
  mapE stripParens (pySplitStr purpose "),")

/-- Label prefixed to concept-set display names (main.py line 27; the
source constant is VSAC_LABEL_PREFIX). -/
def vsacLabel : String := "[VSAC Bulk-Import test] "

/-- Fixed authoring-user identifier (main.py line 26). -/
def PALANTIR_ENCLAVE_USER_ID_1 : String := "a39723f3-dc9c-48ce-90ff-06891c29114f"

/-- The provenance string of get_vsac_csv / get_palantir_csv (main.py lines
155-162 and 335-342); accessed stands for str(datetime.now())[0:-7]. -/
def vsacProvenance (accessed : String) (vs : ValueSet) (csc : List (String × List String)) : String :=
  String.intercalate "; " [
    "Steward: " ++ vs.source,
    "OID: " ++ vs.oid,
    "Code System(s): " ++ String.intercalate "," (csc.map Prod.fst),
    "Definition Type: " ++ vs.defType,
    "Definition Version: " ++ vs.version,
    "Accessed: " ++ accessed]

/-- The code-list splitting of get_vsac_csv (main.py lines 164-172):
codes[0:1999], codes[2000:] / codes[2000:3999], codes[4000:], with columns
codes2/codes3 only present past the cutoffs. -/
def codesFields (codeDelim : String) (codes : List String) : Row :=
  if codes.length < 2000 then
    [("codes", Val.str (String.intercalate codeDelim codes))]
  else
    ("codes", Val.str (String.intercalate codeDelim ((codes.drop 0).take 1999))) ::
    (if codes.length < 4000 then
      [("codes2", Val.str (String.intercalate codeDelim (codes.drop 2000)))]
    else
      [("codes2", Val.str (String.intercalate codeDelim ((codes.drop 2000).take 1999))),
       ("codes3", Val.str (String.intercalate codeDelim (codes.drop 4000)))])

/-- The rows get_vsac_csv emits for one value set (main.py lines 131-174):
one row per code system, with the purposes2[3] access raising IndexError on
malformed purpose annotations. -/
def vsacRowsForValueSet (accessed codeDelim : String) (vs : ValueSet) : Except PyError (List Row) :=
  match purposes2Of vs.purpose with
  | Except.error e => Except.error e
  | Except.ok p2 =>
    let csc := buildCodeMap vs.concepts
    mapE (fun p =>
      match pyIndex p2 3 with
      | Except.error e => Except.error e
      | Except.ok lim =>
        Except.ok ([
          ("name", Val.str vs.displayName),
          ("nameVSAC", Val.str ("[VSAC] " ++ vs.displayName)),
          ("oid", Val.str vs.oid),
          ("codeSystem", Val.str p.1),
          ("limitations", Val.str lim),
          ("intention", Val.str (String.intercalate "; " (p2.take 3))),
          ("provenance", Val.str (vsacProvenance accessed vs csc))] ++
          codesFields codeDelim p.2)) csc

/-- get_vsac_csv (main.py lines 126-180), minus the CSV writing side
effect: the list of emitted rows. -/
def get_vsac_csv (accessed codeDelim : String) (value_sets : List ValueSet) : Except PyError (List Row) :=
  match mapE (vsacRowsForValueSet accessed codeDelim) value_sets with
  | Except.error e => Except.error e
  | Except.ok parts => Except.ok parts.flatten

/-! Basic lemmas about the embedded Python string split. -/

lemma pySplitAux_congr (s : Char) (ss : List Char) :
    ∀ (fuel fuel' : Nat) (l : List Char), l.length ≤ fuel → l.length ≤ fuel' →
      pySplitAux s ss fuel l = pySplitAux s ss fuel' l := by
  intro fuel
  induction fuel with
  | zero =>
    intro fuel' l hl _
    have : l = [] := List.length_eq_zero.mp (Nat.le_zero.mp hl)
    subst this
    cases fuel' <;> rfl
  | succ f ih =>
    intro fuel' l hl hl'
    cases l with
    | nil => cases fuel' <;> rfl
    | cons c rest =>
      cases fuel' with
      | zero => simp at hl'
      | succ f' =>
        simp only [pySplitAux]
        by_cases hp : (s :: ss).isPrefixOf (c :: rest) = true
        · simp only [hp, if_pos]
          have hd : (rest.drop ss.length).length ≤ f := by
            have := List.length_drop ss.length rest
            simp only [List.length_cons] at hl
            omega
          have hd' : (rest.drop ss.length).length ≤ f' := by
            have := List.length_drop ss.length rest
            simp only [List.length_cons] at hl'
            omega
          rw [ih f' _ hd hd']
        · simp only [Bool.not_eq_true] at hp
          simp only [hp, Bool.false_eq_true, if_false]
          have hr : rest.length ≤ f := by simp only [List.length_cons] at hl; omega
          have hr' : rest.length ≤ f' := by simp only [List.length_cons] at hl'; omega
          rw [ih f' rest hr hr']

lemma pySplitAux_ne_nil (s : Char) (ss : List Char) :
    ∀ (fuel : Nat) (l : List Char), pySplitAux s ss fuel l ≠ [] := by
  intro fuel
  induction fuel with
  | zero => intro l; cases l <;> simp [pySplitAux]
  | succ f ih =>
    intro l
    cases l with
    | nil => simp [pySplitAux]
    | cons c rest =>
      simp only [pySplitAux]
      by_cases hp : (s :: ss).isPrefixOf (c :: rest) = true
      · simp [hp]
      · simp only [Bool.not_eq_true] at hp
        simp only [hp, Bool.false_eq_true, if_false]
        cases hrec : pySplitAux s ss f rest <;> simp

lemma pySplit_ne_nil (str sep : List Char) : pySplit str sep ≠ [] := by
  cases sep with
  | nil => simp [pySplit]
  | cons s ss => exact pySplitAux_ne_nil s ss str.length str

lemma hasOcc_cons_false {s c : Char} {ss rest : List Char}
    (h : hasOcc s ss (c :: rest) = false) :
    (s :: ss).isPrefixOf (c :: rest) = false ∧ hasOcc s ss rest = false := by
  simpa [hasOcc] using h

/-- A scan that meets no separator occurrence leaves the list whole. -/
lemma pySplit_noOcc (s : Char) (ss l : List Char) (h : hasOcc s ss l = false) :
    pySplit l (s :: ss) = [l] := by
  show pySplitAux s ss l.length l = [l]
  induction l with
  | nil => rfl
  | cons c rest ih =>
    obtain ⟨hp, hrest⟩ := hasOcc_cons_false h
    simp only [List.length_cons, pySplitAux, hp, Bool.false_eq_true, if_false]
    rw [ih hrest]

lemma isPrefixOf_append_self (l t : List Char) : l.isPrefixOf (l ++ t) = true := by
  induction l with
  | nil => simp [List.isPrefixOf]
  | cons a as ih => simp [List.isPrefixOf, ih]

/-- A scan that starts on a separator occurrence cuts there. -/
lemma pySplit_sep_head (s : Char) (ss l2 : List Char) :
    pySplit ((s :: ss) ++ l2) (s :: ss) = [] :: pySplit l2 (s :: ss) := by
  show pySplitAux s ss (s :: (ss ++ l2)).length (s :: (ss ++ l2)) = [] :: pySplitAux s ss l2.length l2
  simp only [List.length_cons, pySplitAux]
  have hp : (s :: ss).isPrefixOf (s :: (ss ++ l2)) = true := by
    have h2 := isPrefixOf_append_self (s :: ss) l2
    simp only [List.cons_append] at h2
    exact h2
  simp only [hp, if_pos, List.drop_left]
  rw [pySplitAux_congr s ss (ss ++ l2).length l2.length l2 (by simp) (by omega)]

lemma pySplit_cons_of_notPrefix (s : Char) (ss : List Char) (c : Char) (t h : List Char)
    (tl : List (List Char)) (hp : (s :: ss).isPrefixOf (c :: t) = false)
    (hrec : pySplit t (s :: ss) = h :: tl) :
    pySplit (c :: t) (s :: ss) = (c :: h) :: tl := by
  show pySplitAux s ss (c :: t).length (c :: t) = (c :: h) :: tl
  simp only [List.length_cons, pySplitAux, hp, Bool.false_eq_true, if_false]
  have : pySplitAux s ss t.length t = h :: tl := hrec
  rw [this]

/-- Splitting on a two-character separator with distinct characters: a
separator-free block followed by the separator cuts exactly at the
separator. -/
lemma pySplit_block (x y : Char) (hxy : x ≠ y) (l1 l2 : List Char)
    (h1 : hasOcc x [y] l1 = false) :
    pySplit (l1 ++ x :: y :: l2) [x, y] = l1 :: pySplit l2 [x, y] := by
  induction l1 with
  | nil => simpa using pySplit_sep_head x [y] l2
  | cons c l1' ih =>
    obtain ⟨hp1, hrest⟩ := hasOcc_cons_false h1
    have hrec := ih hrest
    have hp : ([x, y] : List Char).isPrefixOf (c :: (l1' ++ x :: y :: l2)) = false := by
      by_cases hc : x = c
      · cases l1' with
        | nil =>
          simp [List.isPrefixOf, beq_eq_false_iff_ne, Ne.symm hxy]
        | cons c' l1'' =>
          by_cases hc' : y = c'
          · exfalso
            subst hc hc'
            simp [List.isPrefixOf] at hp1
          · simp [List.isPrefixOf, beq_eq_false_iff_ne, hc']
      · simp [List.isPrefixOf, beq_eq_false_iff_ne, hc]
    have hstep := pySplit_cons_of_notPrefix x [y] c (l1' ++ x :: y :: l2) l1'
      (pySplit l2 [x, y]) hp hrec
    simpa [List.cons_append] using hstep

/-! The single-code-system grouping used by claim C1. -/

lemma buildCodeMap_foldl_same (cs : String) :
    ∀ (codes acc : List String),
      (codes.map (fun c => Concept.mk c cs c)).foldl
        (fun m c => addCode m c.codeSystemName c.code) [(cs, acc)] = [(cs, acc ++ codes)] := by
  intro codes
  induction codes with
  | nil => intro acc; simp
  | cons c rest ih =>
    intro acc
    simp only [List.map_cons, List.foldl_cons]
    have : addCode [(cs, acc)] cs c = [(cs, acc ++ [c])] := by simp [addCode]
    simpa [this] using ih (acc ++ [c])

/-- Grouping a list of concepts that all share one code system yields a
single bucket holding the codes in order. -/
lemma buildCodeMap_single (cs : String) (codes : List String) (h : codes ≠ []) :
    buildCodeMap (codes.map (fun c => Concept.mk c cs c)) = [(cs, codes)] := by
  cases codes with
  | nil => exact absurd rfl h
  | cons c rest =>
    show (List.map _ (c :: rest)).foldl _ [] = _
    simp only [List.map_cons, List.foldl_cons]
    have h0 : addCode [] cs c = [(cs, [c])] := rfl
    simpa [h0] using buildCodeMap_foldl_same cs rest [c]

/-! Claim C1: the tri-bucket code-list splitting of get_vsac_csv. -/

/-- A well-formed purpose annotation used to drive get_vsac_csv to its
code-splitting step. -/
def c1Purpose : String :=
  "(Clinical Focus: a),(Data Element Scope: b),(Inclusion Criteria: c),(Exclusion Criteria: none)"

/-- A value set whose concepts all live under one code system, carrying the
given code list. -/
def singleSystemValueSet (codes : List String) : ValueSet :=
  { displayName := "VS"
    oid := "2.16.840.1.113883.0.0"
    version := "1"
    source := "Steward"
    defType := "Extensional"
    purpose := c1Purpose
    revisionDate := "2022-01-01"
    concepts := codes.map (fun c => Concept.mk c "SNOMEDCT" c) }

/-- Lookup distributes over row concatenation. -/
lemma lookup_append (k : String) (l1 l2 : Row) :
    (l1 ++ l2).lookup k = (l1.lookup k).or (l2.lookup k) := by
  induction l1 with
  | nil => simp [List.lookup]
  | cons a l1' ih =>
    obtain ⟨k', v⟩ := a
    by_cases hk : (k == k') = true
    · simp [List.lookup, hk]
    · simp only [Bool.not_eq_true] at hk
      simp [List.lookup, hk, ih]

/-- The constant (code-list independent) leading fields of the row that
get_vsac_csv emits for singleSystemValueSet. -/
def c1BaseFun (codes : List String) : Row :=
  [("name", Val.str "VS"),
   ("nameVSAC", Val.str ("[VSAC] " ++ "VS")),
   ("oid", Val.str "2.16.840.1.113883.0.0"),
   ("codeSystem", Val.str "SNOMEDCT"),
   ("limitations", Val.str "Exclusion Criteria: none"),
   ("intention", Val.str (String.intercalate "; "
     (["Clinical Focus: a", "Data Element Scope: b", "Inclusion Criteria: c",
       "Exclusion Criteria: none"].take 3))),
   ("provenance", Val.str (vsacProvenance "A" (singleSystemValueSet codes) [("SNOMEDCT", codes)]))]

lemma vsacRows_single (codes : List String) (hne : codes ≠ []) :
    vsacRowsForValueSet "A" "|" (singleSystemValueSet codes) =
      Except.ok [c1BaseFun codes ++ codesFields "|" codes] := by
  have hb : buildCodeMap (singleSystemValueSet codes).concepts = [("SNOMEDCT", codes)] :=
    buildCodeMap_single "SNOMEDCT" codes hne
  have hp2 : purposes2Of (singleSystemValueSet codes).purpose =
      Except.ok ["Clinical Focus: a", "Data Element Scope: b", "Inclusion Criteria: c",
        "Exclusion Criteria: none"] := rfl
  rw [vsacRowsForValueSet, hp2, hb]
  simp [mapE, pyIndex, c1BaseFun, singleSystemValueSet]

lemma c1BaseFun_lookup_none (codes : List String) (k : String)
    (h1 : k ≠ "name") (h2 : k ≠ "nameVSAC") (h3 : k ≠ "oid") (h4 : k ≠ "codeSystem")
    (h5 : k ≠ "limitations") (h6 : k ≠ "intention") (h7 : k ≠ "provenance") :
    (c1BaseFun codes).lookup k = none := by
  have e1 : (k == "name") = false := beq_eq_false_iff_ne.mpr h1
  have e2 : (k == "nameVSAC") = false := beq_eq_false_iff_ne.mpr h2
  have e3 : (k == "oid") = false := beq_eq_false_iff_ne.mpr h3
  have e4 : (k == "codeSystem") = false := beq_eq_false_iff_ne.mpr h4
  have e5 : (k == "limitations") = false := beq_eq_false_iff_ne.mpr h5
  have e6 : (k == "intention") = false := beq_eq_false_iff_ne.mpr h6
  have e7 : (k == "provenance") = false := beq_eq_false_iff_ne.mpr h7
  simp [c1BaseFun, List.lookup, e1, e2, e3, e4, e5, e6, e7]

/-- Claim C1 (refuted; the code drops codes at the bucket boundaries).
Evaluating get_vsac_csv on a single-code-system value set: with 2500 codes
the emitted codes column joins only codes[0:1999] (the FIRST 1999 entries,
indices 0 to 1998), codes2 joins codes[2000:] (500 entries) and no codes3
key exists, so 1999 + 500 = 2499 of the 2500 codes appear: the entry at
index 1999 is dropped, where the claim requires 2000 entries in codes and
no dropped code.  With 4500 codes, codes joins codes[0:1999] (1999
entries), codes2 joins codes[2000:3999] (1999 entries, indices 2000 to
3998) and codes3 joins codes[4000:] (500 entries), dropping the entries at
indices 1999 and 3999. -/
theorem get_vsac_csv_tri_bucket_drop (codes codes' : List String)
    (h : codes.length = 2500) (h' : codes'.length = 4500) :
    (∃ row : Row,
      get_vsac_csv "A" "|" [singleSystemValueSet codes] = Except.ok [row] ∧
      row.lookup "codes" = some (Val.str (String.intercalate "|" (codes.take 1999))) ∧
      row.lookup "codes2" = some (Val.str (String.intercalate "|" (codes.drop 2000))) ∧
      row.lookup "codes3" = none ∧
      (codes.take 1999).length = 1999 ∧ (codes.drop 2000).length = 500) ∧
    (∃ row' : Row,
      get_vsac_csv "A" "|" [singleSystemValueSet codes'] = Except.ok [row'] ∧
      row'.lookup "codes" = some (Val.str (String.intercalate "|" (codes'.take 1999))) ∧
      row'.lookup "codes2" = some (Val.str (String.intercalate "|" ((codes'.drop 2000).take 1999))) ∧
      row'.lookup "codes3" = some (Val.str (String.intercalate "|" (codes'.drop 4000))) ∧
      (codes'.take 1999).length = 1999 ∧ ((codes'.drop 2000).take 1999).length = 1999 ∧
      (codes'.drop 4000).length = 500) := by
  have hne : codes ≠ [] := by intro hc; rw [hc] at h; simp at h
  have hne' : codes' ≠ [] := by intro hc; rw [hc] at h'; simp at h'
  constructor
  · refine ⟨c1BaseFun codes ++ codesFields "|" codes, ?_, ?_, ?_, ?_, ?_, ?_⟩
    · rw [get_vsac_csv]
      simp [mapE, vsacRows_single codes hne]
    · rw [lookup_append, c1BaseFun_lookup_none codes "codes" (by decide) (by decide)
        (by decide) (by decide) (by decide) (by decide) (by decide)]
      simp [codesFields, h, List.lookup]
    · rw [lookup_append, c1BaseFun_lookup_none codes "codes2" (by decide) (by decide)
        (by decide) (by decide) (by decide) (by decide) (by decide)]
      simp [codesFields, h, List.lookup]
    · rw [lookup_append, c1BaseFun_lookup_none codes "codes3" (by decide) (by decide)
        (by decide) (by decide) (by decide) (by decide) (by decide)]
      simp [codesFields, h, List.lookup]
    · simp [List.length_take, h]
    · simp [List.length_drop, h]
  · refine ⟨c1BaseFun codes' ++ codesFields "|" codes', ?_, ?_, ?_, ?_, ?_, ?_, ?_⟩
    · rw [get_vsac_csv]
      simp [mapE, vsacRows_single codes' hne']
    · rw [lookup_append, c1BaseFun_lookup_none codes' "codes" (by decide) (by decide)
        (by decide) (by decide) (by decide) (by decide) (by decide)]
      simp [codesFields, h', List.lookup]
    · rw [lookup_append, c1BaseFun_lookup_none codes' "codes2" (by decide) (by decide)
        (by decide) (by decide) (by decide) (by decide) (by decide)]
      simp [codesFields, h', List.lookup]
    · rw [lookup_append, c1BaseFun_lookup_none codes' "codes3" (by decide) (by decide)
        (by decide) (by decide) (by decide) (by decide) (by decide)]
      simp [codesFields, h', List.lookup]
    · simp [List.length_take, h']
    · simp [List.length_take, List.length_drop, h']
    · simp [List.length_drop, h']

/-- Witness for get_vsac_csv_tri_bucket_drop at concrete 2500- and
4500-entry code lists. -/
theorem get_vsac_csv_tri_bucket_drop_witness :
    (∃ row : Row,
      get_vsac_csv "A" "|" [singleSystemValueSet (List.replicate 2500 "C")] = Except.ok [row] ∧
      row.lookup "codes" =
        some (Val.str (String.intercalate "|" ((List.replicate 2500 "C").take 1999))) ∧
      row.lookup "codes2" =
        some (Val.str (String.intercalate "|" ((List.replicate 2500 "C").drop 2000))) ∧
      row.lookup "codes3" = none ∧
      ((List.replicate 2500 "C").take 1999).length = 1999 ∧
      ((List.replicate 2500 "C").drop 2000).length = 500) ∧
    (∃ row' : Row,
      get_vsac_csv "A" "|" [singleSystemValueSet (List.replicate 4500 "C")] = Except.ok [row'] ∧
      row'.lookup "codes" =
        some (Val.str (String.intercalate "|" ((List.replicate 4500 "C").take 1999))) ∧
      row'.lookup "codes2" =
        some (Val.str (String.intercalate "|" (((List.replicate 4500 "C").drop 2000).take 1999))) ∧
      row'.lookup "codes3" =
        some (Val.str (String.intercalate "|" ((List.replicate 4500 "C").drop 4000))) ∧
      ((List.replicate 4500 "C").take 1999).length = 1999 ∧
      (((List.replicate 4500 "C").drop 2000).take 1999).length = 1999 ∧
      ((List.replicate 4500 "C").drop 4000).length = 500) :=
  get_vsac_csv_tri_bucket_drop (List.replicate 2500 "C") (List.replicate 4500 "C")
    (List.length_replicate 2500 "C") (List.length_replicate 4500 "C")

/-! Embedding of get_palantir_csv (main.py lines 228-404), minus the CSV
writing side effects.  Ambient effects become parameters: randint is a
stream indexed by call order, uuid4 a fresh opaque string per
(value-set, concept) position, and the two clock reads are parameters. -/

/-- Ambient-effect parameters of get_palantir_csv. -/
structure PalantirParams where
  rand : Nat → Nat
  uuid : Nat → Nat → String
  created_at : String
  accessed : String

/-- Phase I inner loop (main.py lines 243-249): assign a fresh synthetic
concept id to each (codeSystem, code) pair, threading the randint call
counter. -/
def addConceptIds (rand : Nat → Nat) :
    Nat → List (String × List (String × Nat)) → List Concept →
      Nat × List (String × List (String × Nat))
  | ctr, m, [] => (ctr, m)
  | ctr, m, c :: rest =>
    addConceptIds rand (ctr + 1)
      (dictInsert m c.codeSystemName
        (dictInsert ((m.lookup c.codeSystemName).getD []) c.code (rand ctr))) rest

/-- Phase I outer loop (main.py lines 236-249): assign a fresh synthetic
codeset id per OID and concept ids per (codeSystem, code). -/
def buildIdMapsGo (rand : Nat → Nat) :
    Nat → List (String × Nat) → List (String × List (String × Nat)) → List ValueSet →
      List (String × Nat) × List (String × List (String × Nat))
  | _, oidM, cM, [] => (oidM, cM)
  | ctr, oidM, cM, vs :: rest =>
    let r := addConceptIds rand (ctr + 1) cM vs.concepts
    buildIdMapsGo rand r.1 (dictInsert oidM vs.oid (rand ctr)) r.2 rest

/-- The two synthetic-identifier maps of get_palantir_csv:
oid__codeset_id_map and codesystem_code__concept_id_map. -/
def buildIdMaps (rand : Nat → Nat) (value_sets : List ValueSet) :
    List (String × Nat) × List (String × List (String × Nat)) :=
  buildIdMapsGo rand 0 [] [] value_sets

/-- The dict access oid__codeset_id_map[value_set['@ID']]; the key is
always present because phase I inserted it for every input value set. -/
def codesetIdOf (oidM : List (String × Nat)) (vs : ValueSet) : Nat :=
  (oidM.lookup vs.oid).getD 0

/-- One concept_set_version_item_rv_edited row (main.py lines 265-280). -/
def mkVersionItemRow (codesetId : Nat) (itemId created_at : String) (c : Concept) : Row :=
  [("codeset_id", Val.int codesetId),
   ("concept_id", Val.str ""),
   ("code", Val.str c.code),
   ("codeSystem", Val.str c.codeSystemName),
   ("isExcluded", Val.bool false),
   ("includeDescendants", Val.bool true),
   ("includeMapped", Val.bool false),
   ("item_id", Val.str itemId),
   ("annotation", Val.str "Generated from VSAC export"),
   ("created_by", Val.str PALANTIR_ENCLAVE_USER_ID_1),
   ("created_at", Val.str created_at)]

/-- The concept_set_version_item_rv_edited rows of one value set (inner
loop of main.py lines 259-281); i is the value set's position in the
input. -/
def palantirRows1For (P : PalantirParams) (oidM : List (String × Nat)) (i : Nat)
    (vs : ValueSet) : List Row :=
  vs.concepts.enum.map (fun jc => mkVersionItemRow (codesetIdOf oidM vs) (P.uuid i jc.1)
    P.created_at jc.2)

/-- All concept_set_version_item_rv_edited rows (main.py lines 258-281). -/
def palantirRows1 (P : PalantirParams) (oidM : List (String × Nat))
    (value_sets : List ValueSet) : List Row :=
  (value_sets.enum.map (fun iv => palantirRows1For P oidM iv.1 iv.2)).flatten

/-- One code_sets row (main.py lines 290-352); the purposes2[3] access for
the limitations field raises IndexError on malformed purpose text. -/
def codeSetRowFor (P : PalantirParams) (oidM : List (String × Nat)) (vs : ValueSet) :
    Except PyError Row :=
  match purposes2Of vs.purpose with
  | Except.error e => Except.error e
  | Except.ok p2 =>
    match pyIndex p2 3 with
    | Except.error e => Except.error e
    | Except.ok lim =>
      Except.ok [
        ("codeset_id", Val.int (codesetIdOf oidM vs)),
        ("concept_set_name", Val.str (vsacLabel ++ vs.displayName)),
        ("concept_set_version_title", Val.str (vsacLabel ++ vs.displayName ++ " (v1)")),
        ("project", Val.str "RP-4A9E"),
        ("source_application", Val.str "EXTERNAL VSAC"),
        ("source_application_version", Val.str ""),
        ("created_at", Val.str P.created_at),
        ("atlas_json", Val.str ""),
        ("is_most_recent_version", Val.bool true),
        ("version", Val.int 1),
        ("comments", Val.str "Exported from VSAC and bulk imported to N3C."),
        ("intention", Val.str (String.intercalate "; " (p2.take 3))),
        ("limitations", Val.str lim),
        ("issues", Val.str ""),
        ("update_message", Val.str "Initial version."),
        ("status", Val.str "Under Construction"),
        ("has_review", Val.str ""),
        ("reviewed_by", Val.str ""),
        ("created_by", Val.str PALANTIR_ENCLAVE_USER_ID_1),
        ("provenance", Val.str (vsacProvenance P.accessed vs (buildCodeMap vs.concepts))),
        ("atlas_json_resource_url", Val.str ""),
        ("parent_version_id", Val.str ""),
        ("is_draft", Val.bool true)]

/-- The fixed status enumeration of main.py line 378. -/
def statusEnum : List String := ["Finished", "Under Construction", "N3C Validation Complete"]

/-- The fixed 10-value stage enumeration of main.py lines 379-390. -/
def stageEnum : List String :=
  ["Finished", "Awaiting Editing", "Candidate for N3C Review", "Awaiting N3C Committee Review",
   "Awaiting SME Review", "Under N3C Committee Review", "Under SME Review",
   "N3C Validation Complete", "Awaiting Informatician Review", "Under Informatician Review"]

/-- One concept_set_container_edited row (main.py lines 372-398). -/
def mkContainerRow (P : PalantirParams) (p2 : List String) (vs : ValueSet) (c : Concept) : Row :=
  [("concept_set_id", Val.str (vsacLabel ++ vs.displayName)),
   ("concept_set_name", Val.str (vsacLabel ++ vs.displayName)),
   ("project_id", Val.str ""),
   ("assigned_informatician", Val.str PALANTIR_ENCLAVE_USER_ID_1),
   ("assigned_sme", Val.str PALANTIR_ENCLAVE_USER_ID_1),
   ("status", Val.str (statusEnum.getD 1 "")),
   ("stage", Val.str (stageEnum.getD 1 "")),
   ("intention", Val.str (String.intercalate "; " (p2.take 3))),
   ("n3c_reviewer", Val.str ""),
   ("alias", Val.str c.displayName),
   ("archived", Val.bool false),
   ("created_by", Val.str PALANTIR_ENCLAVE_USER_ID_1),
   ("created_at", Val.str P.created_at)]

/-- The concept_set_container_edited rows of one value set (main.py lines
359-399): one row per concept. -/
def containerRowsFor (P : PalantirParams) (vs : ValueSet) : Except PyError (List Row) :=
  match purposes2Of vs.purpose with
  | Except.error e => Except.error e
  | Except.ok p2 => Except.ok (vs.concepts.map (mkContainerRow P p2 vs))

/-- get_palantir_csv (main.py lines 228-404): the three emitted tables
(version items, code sets, containers), in the source's build order. -/
def get_palantir_csv (P : PalantirParams) (value_sets : List ValueSet) :
    Except PyError (List Row × List Row × List Row) :=
  let maps := buildIdMaps P.rand value_sets
  let rows1 := palantirRows1 P maps.1 value_sets
  match mapE (codeSetRowFor P maps.1) value_sets with
  | Except.error e => Except.error e
  | Except.ok rows2 =>
    match mapE (containerRowsFor P) value_sets with
    | Except.error e => Except.error e
    | Except.ok parts3 => Except.ok (rows1, rows2, parts3.flatten)

/-! Success-mode lemmas for the exception-threading loop mapE. -/

lemma mapE_ok_length (f : α → Except PyError β) :
    ∀ (l : List α) (out : List β), mapE f l = Except.ok out → out.length = l.length := by
  intro l
  induction l with
  | nil =>
    intro out h
    simp only [mapE, Except.ok.injEq] at h
    simp [← h]
  | cons a t ih =>
    intro out h
    simp only [mapE] at h
    cases hfa : f a <;> rw [hfa] at h
    · simp at h
    case ok b =>
      cases hrec : mapE f t <;> rw [hrec] at h
      · simp at h
      case ok bs =>
        simp only [Except.ok.injEq] at h
        subst h
        simp [ih bs hrec]

lemma mapE_ok_get (f : α → Except PyError β) :
    ∀ (l : List α) (out : List β), mapE f l = Except.ok out →
      ∀ (i : Nat) (hi : i < l.length) (hi' : i < out.length),
        f (l.get ⟨i, hi⟩) = Except.ok (out.get ⟨i, hi'⟩) := by
  intro l
  induction l with
  | nil => intro out h i hi; simp at hi
  | cons a t ih =>
    intro out h i hi hi'
    simp only [mapE] at h
    cases hfa : f a <;> rw [hfa] at h
    · simp at h
    case ok b =>
      cases hrec : mapE f t <;> rw [hrec] at h
      · simp at h
      case ok bs =>
        simp only [Except.ok.injEq] at h
        subst h
        cases i with
        | zero => simpa using hfa
        | succ j =>
          simp only [List.get_cons_succ]
          exact ih bs hrec j (by simpa using hi) (by simpa using hi')

lemma mapE_ok_mem (f : α → Except PyError β) :
    ∀ (l : List α) (out : List β), mapE f l = Except.ok out →
      ∀ b ∈ out, ∃ a ∈ l, f a = Except.ok b := by
  intro l
  induction l with
  | nil =>
    intro out h b hb
    simp only [mapE, Except.ok.injEq] at h
    subst h
    simp at hb
  | cons a t ih =>
    intro out h b hb
    simp only [mapE] at h
    cases hfa : f a <;> rw [hfa] at h
    · simp at h
    case ok b0 =>
      cases hrec : mapE f t <;> rw [hrec] at h
      · simp at h
      case ok bs =>
        simp only [Except.ok.injEq] at h
        subst h
        rcases List.mem_cons.mp hb with hb0 | hbs
        · exact ⟨a, List.mem_cons_self a t, by rw [hfa, hb0]⟩
        · obtain ⟨a', ha', hfa'⟩ := ih bs hrec b hbs
          exact ⟨a', List.mem_cons_of_mem a ha', hfa'⟩

/-- Decomposition of a successful get_palantir_csv run into its three
table-building stages. -/
lemma get_palantir_csv_ok (P : PalantirParams) (vss : List ValueSet) (r1 r2 r3 : List Row)
    (h : get_palantir_csv P vss = Except.ok (r1, r2, r3)) :
    r1 = palantirRows1 P (buildIdMaps P.rand vss).1 vss ∧
    mapE (codeSetRowFor P (buildIdMaps P.rand vss).1) vss = Except.ok r2 ∧
    ∃ parts3, mapE (containerRowsFor P) vss = Except.ok parts3 ∧ r3 = parts3.flatten := by
  simp only [get_palantir_csv] at h
  cases h2 : mapE (codeSetRowFor P (buildIdMaps P.rand vss).1) vss <;> rw [h2] at h
  · simp at h
  case ok rows2 =>
    cases h3 : mapE (containerRowsFor P) vss <;> rw [h3] at h
    · simp at h
    case ok parts3 =>
      simp only [Except.ok.injEq, Prod.mk.injEq] at h
      obtain ⟨hr1, hr2, hr3⟩ := h
      exact ⟨hr1.symm, by rw [hr2], parts3, rfl, hr3.symm⟩

lemma containerRowsFor_ok (P : PalantirParams) (vs : ValueSet) (part : List Row)
    (h : containerRowsFor P vs = Except.ok part) :
    ∃ p2, purposes2Of vs.purpose = Except.ok p2 ∧
      part = vs.concepts.map (mkContainerRow P p2 vs) := by
  simp only [containerRowsFor] at h
  cases hp : purposes2Of vs.purpose <;> rw [hp] at h
  · simp at h
  · simp only [Except.ok.injEq] at h
    exact ⟨_, rfl, h.symm⟩

/-- Claim C6: for every input value set with N concept entries,
get_palantir_csv emits exactly N version-item rows and exactly N container
rows for that value set (its contribution to each table is one row per
concept), and exactly one code_sets row per value set. -/
theorem get_palantir_csv_row_counts (P : PalantirParams) (vss : List ValueSet)
    (r1 r2 r3 : List Row) (h : get_palantir_csv P vss = Except.ok (r1, r2, r3)) :
    r2.length = vss.length ∧
    r1 = (vss.enum.map (fun iv =>
      palantirRows1For P (buildIdMaps P.rand vss).1 iv.1 iv.2)).flatten ∧
    (∀ (i : Nat) (hi : i < vss.length),
      (palantirRows1For P (buildIdMaps P.rand vss).1 i (vss.get ⟨i, hi⟩)).length =
        (vss.get ⟨i, hi⟩).concepts.length) ∧
    ∃ parts3 : List (List Row),
      mapE (containerRowsFor P) vss = Except.ok parts3 ∧ r3 = parts3.flatten ∧
      parts3.length = vss.length ∧
      ∀ (i : Nat) (hi : i < vss.length) (hi' : i < parts3.length),
        (parts3.get ⟨i, hi'⟩).length = (vss.get ⟨i, hi⟩).concepts.length := by
  obtain ⟨hr1, hr2, parts3, h3, hr3⟩ := get_palantir_csv_ok P vss r1 r2 r3 h
  refine ⟨mapE_ok_length _ vss r2 hr2, ?_, ?_, parts3, h3, hr3, mapE_ok_length _ vss parts3 h3, ?_⟩
  · rw [hr1]; rfl
  · intro i hi
    simp [palantirRows1For]
  · intro i hi hi'
    have hget := mapE_ok_get _ vss parts3 h3 i hi hi'
    obtain ⟨p2, _, hpart⟩ := containerRowsFor_ok P _ _ hget
    simp only [List.get_eq_getElem] at hpart
    simp [hpart]

/-- Fixed ambient parameters used by the concrete witness runs. -/
def cP : PalantirParams :=
  { rand := fun _ => 42
    uuid := fun _ _ => "item-uuid"
    created_at := "2022-02-02T00:00:00.000Z"
    accessed := "2022-02-02 00:00:00" }

/-- A concrete single-value-set input with two concepts, used by witnesses. -/
def cVss : List ValueSet := [singleSystemValueSet ["x", "y"]]

/-- The tables of the concrete run (the run succeeds, see the rfl proofs
below). -/
def cTables : List Row × List Row × List Row :=
  (get_palantir_csv cP cVss).toOption.getD ([], [], [])

/-- Witness for get_palantir_csv_row_counts on the concrete run. -/
theorem get_palantir_csv_row_counts_witness :
    cTables.2.1.length = cVss.length ∧
    cTables.1 = (cVss.enum.map (fun iv =>
      palantirRows1For cP (buildIdMaps cP.rand cVss).1 iv.1 iv.2)).flatten ∧
    (∀ (i : Nat) (hi : i < cVss.length),
      (palantirRows1For cP (buildIdMaps cP.rand cVss).1 i (cVss.get ⟨i, hi⟩)).length =
        (cVss.get ⟨i, hi⟩).concepts.length) ∧
    ∃ parts3 : List (List Row),
      mapE (containerRowsFor cP) cVss = Except.ok parts3 ∧ cTables.2.2 = parts3.flatten ∧
      parts3.length = cVss.length ∧
      ∀ (i : Nat) (hi : i < cVss.length) (hi' : i < parts3.length),
        (parts3.get ⟨i, hi'⟩).length = (cVss.get ⟨i, hi⟩).concepts.length :=
  get_palantir_csv_row_counts cP cVss cTables.1 cTables.2.1 cTables.2.2 rfl

/-- Claim C9: every container row has status and stage equal to index 1 of
their fixed enumerations (status index 1 being the string Under
Construction), and every version-item row has the fixed flags
isExcluded false, includeDescendants true, includeMapped false. -/
theorem container_status_stage_item_flags (P : PalantirParams) (vss : List ValueSet)
    (r1 r2 r3 : List Row) (h : get_palantir_csv P vss = Except.ok (r1, r2, r3)) :
    statusEnum.getD 1 "" = "Under Construction" ∧
    (∀ row ∈ r3, row.lookup "status" = some (Val.str (statusEnum.getD 1 "")) ∧
                 row.lookup "stage" = some (Val.str (stageEnum.getD 1 ""))) ∧
    (∀ row ∈ r1, row.lookup "isExcluded" = some (Val.bool false) ∧
                 row.lookup "includeDescendants" = some (Val.bool true) ∧
                 row.lookup "includeMapped" = some (Val.bool false)) := by
  obtain ⟨hr1, hr2, parts3, h3, hr3⟩ := get_palantir_csv_ok P vss r1 r2 r3 h
  refine ⟨rfl, ?_, ?_⟩
  · intro row hrow
    rw [hr3] at hrow
    obtain ⟨part, hpart, hrowp⟩ := List.mem_flatten.mp hrow
    obtain ⟨vs, _, hok⟩ := mapE_ok_mem _ vss parts3 h3 part hpart
    obtain ⟨p2, _, hmap⟩ := containerRowsFor_ok P vs part hok
    rw [hmap] at hrowp
    obtain ⟨c, _, rfl⟩ := List.mem_map.mp hrowp
    exact ⟨by simp [mkContainerRow, List.lookup], by simp [mkContainerRow, List.lookup]⟩
  · intro row hrow
    rw [hr1] at hrow
    simp only [palantirRows1] at hrow
    obtain ⟨part, hpart, hrowp⟩ := List.mem_flatten.mp hrow
    obtain ⟨iv, _, rfl⟩ := List.mem_map.mp hpart
    simp only [palantirRows1For] at hrowp
    obtain ⟨jc, _, rfl⟩ := List.mem_map.mp hrowp
    refine ⟨?_, ?_, ?_⟩ <;> simp [mkVersionItemRow, List.lookup]

/-- Witness for container_status_stage_item_flags on the concrete run. -/
theorem container_status_stage_item_flags_witness :
    statusEnum.getD 1 "" = "Under Construction" ∧
    (∀ row ∈ cTables.2.2, row.lookup "status" = some (Val.str (statusEnum.getD 1 "")) ∧
                 row.lookup "stage" = some (Val.str (stageEnum.getD 1 ""))) ∧
    (∀ row ∈ cTables.1, row.lookup "isExcluded" = some (Val.bool false) ∧
                 row.lookup "includeDescendants" = some (Val.bool true) ∧
                 row.lookup "includeMapped" = some (Val.bool false)) :=
  container_status_stage_item_flags cP cVss cTables.1 cTables.2.1 cTables.2.2 rfl

/-! Dictionary-key lemmas for the synthetic identifier maps (claim C8). -/

lemma mem_dictInsert (m : List (String × α)) (k : String) (v : α) :
    ∀ p ∈ dictInsert m k v, p = (k, v) ∨ p ∈ m := by
  induction m with
  | nil => intro p hp; simp [dictInsert] at hp; left; exact hp
  | cons a rest ih =>
    obtain ⟨k', v'⟩ := a
    intro p hp
    by_cases hk : k' = k
    · simp only [dictInsert, hk, if_pos] at hp
      rcases List.mem_cons.mp hp with h1 | h2
      · left; exact h1
      · right; exact List.mem_cons_of_mem _ h2
    · simp only [dictInsert, hk, if_false] at hp
      rcases List.mem_cons.mp hp with h1 | h2
      · right; rw [h1]; exact List.mem_cons_self _ _
      · rcases ih p h2 with h3 | h4
        · left; exact h3
        · right; exact List.mem_cons_of_mem _ h4

lemma mem_keys_dictInsert (m : List (String × α)) (k : String) (v : α) (k' : String) :
    k' ∈ (dictInsert m k v).map Prod.fst ↔ k' = k ∨ k' ∈ m.map Prod.fst := by
  induction m with
  | nil => simp [dictInsert]
  | cons a rest ih =>
    obtain ⟨ka, va⟩ := a
    by_cases hk : ka = k
    · subst hk
      simp [dictInsert]
    · simp only [dictInsert, hk, if_false, List.map_cons, List.mem_cons, ih]
      tauto

lemma nodup_keys_dictInsert (m : List (String × α)) (k : String) (v : α)
    (h : (m.map Prod.fst).Nodup) : ((dictInsert m k v).map Prod.fst).Nodup := by
  induction m with
  | nil => simp [dictInsert]
  | cons a rest ih =>
    obtain ⟨ka, va⟩ := a
    simp only [List.map_cons, List.nodup_cons] at h
    by_cases hk : ka = k
    · subst hk
      have hins : dictInsert ((ka, va) :: rest) ka v = (ka, v) :: rest := by
        simp [dictInsert]
      rw [hins]
      simp only [List.map_cons, List.nodup_cons]
      exact h
    · simp only [dictInsert, hk, if_false, List.map_cons, List.nodup_cons]
      refine ⟨?_, ih h.2⟩
      rw [mem_keys_dictInsert]
      rintro (h1 | h2)
      · exact hk h1
      · exact h.1 h2

lemma lookup_eq_some_mem (m : List (String × α)) (k : String) (v : α)
    (h : m.lookup k = some v) : (k, v) ∈ m := by
  induction m with
  | nil => simp [List.lookup] at h
  | cons a rest ih =>
    obtain ⟨ka, va⟩ := a
    by_cases hk : (k == ka) = true
    · simp only [List.lookup, hk, Option.some.injEq] at h
      rw [eq_of_beq hk, h]
      exact List.mem_cons_self _ _
    · simp only [Bool.not_eq_true] at hk
      simp only [List.lookup, hk] at h
      exact List.mem_cons_of_mem _ (ih h)

/-- Invariant carried by the concept-id map: outer keys distinct, and each
inner map's keys distinct. -/
def ConceptMapInv (m : List (String × List (String × Nat))) : Prop :=
  (m.map Prod.fst).Nodup ∧ ∀ p ∈ m, (p.2.map Prod.fst).Nodup

lemma addConceptIds_inv (rand : Nat → Nat) :
    ∀ (concepts : List Concept) (ctr : Nat) (m : List (String × List (String × Nat))),
      ConceptMapInv m → ConceptMapInv (addConceptIds rand ctr m concepts).2 := by
  intro concepts
  induction concepts with
  | nil => intro ctr m hm; exact hm
  | cons c rest ih =>
    intro ctr m hm
    apply ih
    constructor
    · exact nodup_keys_dictInsert _ _ _ hm.1
    · intro p hp
      rcases mem_dictInsert _ _ _ p hp with h1 | h2
      · rw [h1]
        apply nodup_keys_dictInsert
        cases hl : m.lookup c.codeSystemName with
        | none => simp
        | some inner =>
          simpa using hm.2 _ (lookup_eq_some_mem m _ inner hl)
      · exact hm.2 p h2

lemma buildIdMapsGo_inv (rand : Nat → Nat) :
    ∀ (vss : List ValueSet) (ctr : Nat) (oidM : List (String × Nat))
      (cM : List (String × List (String × Nat))),
      (oidM.map Prod.fst).Nodup → ConceptMapInv cM →
      ((buildIdMapsGo rand ctr oidM cM vss).1.map Prod.fst).Nodup ∧
      ConceptMapInv (buildIdMapsGo rand ctr oidM cM vss).2 := by
  intro vss
  induction vss with
  | nil => intro ctr oidM cM h1 h2; exact ⟨h1, h2⟩
  | cons vs rest ih =>
    intro ctr oidM cM h1 h2
    exact ih _ _ _ (nodup_keys_dictInsert _ _ _ h1) (addConceptIds_inv rand vs.concepts _ cM h2)

lemma buildIdMapsGo_oid_mem (rand : Nat → Nat) :
    ∀ (vss : List ValueSet) (ctr : Nat) (oidM : List (String × Nat))
      (cM : List (String × List (String × Nat))) (k : String),
      (k ∈ oidM.map Prod.fst ∨ ∃ vs ∈ vss, vs.oid = k) →
      k ∈ (buildIdMapsGo rand ctr oidM cM vss).1.map Prod.fst := by
  intro vss
  induction vss with
  | nil =>
    intro ctr oidM cM k hk
    rcases hk with h1 | ⟨vs, hvs, _⟩
    · exact h1
    · simp at hvs
  | cons vs rest ih =>
    intro ctr oidM cM k hk
    simp only [buildIdMapsGo]
    rcases hk with h1 | ⟨vs', hvs', hoid⟩
    · exact ih _ _ _ k (Or.inl (by rw [mem_keys_dictInsert]; right; exact h1))
    · rcases List.mem_cons.mp hvs' with h2 | h3
      · exact ih _ _ _ k (Or.inl (by rw [mem_keys_dictInsert]; left; rw [← hoid, h2]))
      · exact ih _ _ _ k (Or.inr ⟨vs', h3, hoid⟩)

lemma codeSetRowFor_ok_lookup (P : PalantirParams) (oidM : List (String × Nat))
    (vs : ValueSet) (row : Row) (h : codeSetRowFor P oidM vs = Except.ok row) :
    row.lookup "codeset_id" = some (Val.int (codesetIdOf oidM vs)) := by
  simp only [codeSetRowFor] at h
  cases hp : purposes2Of vs.purpose <;> rw [hp] at h <;> dsimp only at h
  · simp at h
  case ok p2 =>
    cases hl : pyIndex p2 3 <;> rw [hl] at h <;> dsimp only at h
    · simp at h
    case ok lim =>
      simp only [Except.ok.injEq] at h
      subst h
      simp [List.lookup]

/-- Claim C8, amended: within one run each value-set OID is mapped to
exactly one synthetic codeset id and each (codeSystem, code) pair to
exactly one synthetic concept id (the maps are built with overwriting
inserts, so keys stay distinct; nothing is checked against prior runs);
every version-item row and every code_sets row carries its value set's
single codeset id, but container rows do NOT carry the codeset id at all
(their identifier is the prefixed display name; see the counterexample). -/
theorem synthetic_id_maps (P : PalantirParams) (vss : List ValueSet)
    (r1 r2 r3 : List Row) (h : get_palantir_csv P vss = Except.ok (r1, r2, r3)) :
    ((buildIdMaps P.rand vss).1.map Prod.fst).Nodup ∧
    (∀ vs ∈ vss, vs.oid ∈ (buildIdMaps P.rand vss).1.map Prod.fst) ∧
    ((buildIdMaps P.rand vss).2.map Prod.fst).Nodup ∧
    (∀ p ∈ (buildIdMaps P.rand vss).2, (p.2.map Prod.fst).Nodup) ∧
    (∀ (i : Nat) (hi : i < vss.length),
      ∀ row ∈ palantirRows1For P (buildIdMaps P.rand vss).1 i (vss.get ⟨i, hi⟩),
        row.lookup "codeset_id" =
          some (Val.int (codesetIdOf (buildIdMaps P.rand vss).1 (vss.get ⟨i, hi⟩)))) ∧
    (∀ (i : Nat) (hi : i < vss.length) (hi' : i < r2.length),
      (r2.get ⟨i, hi'⟩).lookup "codeset_id" =
        some (Val.int (codesetIdOf (buildIdMaps P.rand vss).1 (vss.get ⟨i, hi⟩)))) ∧
    (∀ row ∈ r3, row.lookup "codeset_id" = none) := by
  obtain ⟨hr1, hr2, parts3, h3, hr3⟩ := get_palantir_csv_ok P vss r1 r2 r3 h
  have hinv := buildIdMapsGo_inv P.rand vss 0 [] [] (by simp) ⟨by simp, by simp⟩
  refine ⟨hinv.1, ?_, hinv.2.1, hinv.2.2, ?_, ?_, ?_⟩
  · intro vs hvs
    exact buildIdMapsGo_oid_mem P.rand vss 0 [] [] vs.oid (Or.inr ⟨vs, hvs, rfl⟩)
  · intro i hi row hrow
    simp only [palantirRows1For] at hrow
    obtain ⟨jc, _, rfl⟩ := List.mem_map.mp hrow
    simp [mkVersionItemRow, List.lookup]
  · intro i hi hi'
    exact codeSetRowFor_ok_lookup P _ _ _ (mapE_ok_get _ vss r2 hr2 i hi hi')
  · intro row hrow
    rw [hr3] at hrow
    obtain ⟨part, hpart, hrowp⟩ := List.mem_flatten.mp hrow
    obtain ⟨vs, _, hok⟩ := mapE_ok_mem _ vss parts3 h3 part hpart
    obtain ⟨p2, _, hmap⟩ := containerRowsFor_ok P vs part hok
    rw [hmap] at hrowp
    obtain ⟨c, _, rfl⟩ := List.mem_map.mp hrowp
    simp [mkContainerRow, List.lookup]

/-- Witness for synthetic_id_maps on the concrete run. -/
theorem synthetic_id_maps_witness :
    ((buildIdMaps cP.rand cVss).1.map Prod.fst).Nodup ∧
    (∀ vs ∈ cVss, vs.oid ∈ (buildIdMaps cP.rand cVss).1.map Prod.fst) ∧
    ((buildIdMaps cP.rand cVss).2.map Prod.fst).Nodup ∧
    (∀ p ∈ (buildIdMaps cP.rand cVss).2, (p.2.map Prod.fst).Nodup) ∧
    (∀ (i : Nat) (hi : i < cVss.length),
      ∀ row ∈ palantirRows1For cP (buildIdMaps cP.rand cVss).1 i (cVss.get ⟨i, hi⟩),
        row.lookup "codeset_id" =
          some (Val.int (codesetIdOf (buildIdMaps cP.rand cVss).1 (cVss.get ⟨i, hi⟩)))) ∧
    (∀ (i : Nat) (hi : i < cVss.length) (hi' : i < cTables.2.1.length),
      (cTables.2.1.get ⟨i, hi'⟩).lookup "codeset_id" =
        some (Val.int (codesetIdOf (buildIdMaps cP.rand cVss).1 (cVss.get ⟨i, hi⟩)))) ∧
    (∀ row ∈ cTables.2.2, row.lookup "codeset_id" = none) :=
  synthetic_id_maps cP cVss cTables.1 cTables.2.1 cTables.2.2 rfl

/-- Counterexample to claim C8 as stated: in the concrete run (whose only
synthetic codeset id is 42) the container table is non-empty, yet its rows
have no codeset_id key and no field holding the codeset id 42 in any form,
so container rows do not carry the value set's codeset id; only the
version-item and code_sets rows do. -/
theorem synthetic_id_maps_counterexample :
    cTables.2.2 ≠ [] ∧
    (∀ row ∈ cTables.2.2, row.lookup "codeset_id" = none ∧
      ∀ kv ∈ row, kv.2 ≠ Val.int 42 ∧ kv.2 ≠ Val.str "42") ∧
    (∀ row ∈ cTables.1, row.lookup "codeset_id" = some (Val.int 42)) ∧
    (∀ row ∈ cTables.2.1, row.lookup "codeset_id" = some (Val.int 42)) := by
  decide

/-! Embedding of the purpose decomposition of vsac_to_vsac (main.py lines
90-103): split on the literal separator, then strip each clause's label by
splitting on it and taking index 1.  The fields are computed in the
source's dict-literal order (Clinical Focus, Inclusion Criteria, Data
Element Scope, Exclusion Criteria), which fixes which access raises first
on malformed input; the result tuple is (clinical focus, data-element
scope, inclusion criteria, exclusion criteria). -/

/-- Clause label of the clinical-focus field. -/
def labelCF : String := "(Clinical Focus: "

/-- Clause label of the data-element-scope field. -/
def labelDES : String := "(Data Element Scope: "

/-- Clause label of the inclusion-criteria field. -/
def labelIC : String := "(Inclusion Criteria: "

/-- Clause label of the exclusion-criteria field. -/
def labelEC : String := "(Exclusion Criteria: "

/-- The Intention decomposition of vsac_to_vsac. -/
def vsac_to_vsac_intention (purpose : String) :
    Except PyError (String × String × String × String) :=
  let purposes := pySplitStr purpose "),"
  match pyIndex purposes 0 with
  | Except.error e => Except.error e
  | Except.ok p0 =>
    match pyIndex (pySplitStr p0 labelCF) 1 with
    | Except.error e => Except.error e
    | Except.ok cf =>
      match pyIndex purposes 2 with
      | Except.error e => Except.error e
      | Except.ok p2 =>
        match pyIndex (pySplitStr p2 labelIC) 1 with
        | Except.error e => Except.error e
        | Except.ok ic =>
          match pyIndex purposes 1 with
          | Except.error e => Except.error e
          | Except.ok p1 =>
            match pyIndex (pySplitStr p1 labelDES) 1 with
            | Except.error e => Except.error e
            | Except.ok des =>
              match pyIndex purposes 3 with
              | Except.error e => Except.error e
              | Except.ok p3 =>
                match pyIndex (pySplitStr p3 labelEC) 1 with
                | Except.error e => Except.error e
                | Except.ok ec => Except.ok (cf, des, ic, ec)

/-- A purpose annotation made of four labelled clauses with the given
contents (the separator between clauses being the literal two characters
paren-comma, and the final clause keeping its closing paren). -/
def mkPurpose (a b c d : List Char) : String :=
  String.mk (labelCF.data ++ a ++ ')' :: ',' ::
    (labelDES.data ++ b ++ ')' :: ',' ::
      (labelIC.data ++ c ++ ')' :: ',' ::
        (labelEC.data ++ (d ++ [')'])))))

lemma pyIndex_error_eq (l : List α) (i : Nat) (e : PyError)
    (h : pyIndex l i = Except.error e) : e = PyError.indexError := by
  simp only [pyIndex] at h
  cases hl : l.get? i <;> rw [hl] at h <;> simp at h
  exact h.symm

lemma pyIndex_ok_lt (l : List α) (i : Nat) (a : α)
    (h : pyIndex l i = Except.ok a) : i < l.length := by
  simp only [pyIndex] at h
  cases hl : l.get? i <;> rw [hl] at h <;> simp at h
  exact List.get?_eq_some.mp hl |>.choose

/-- Splitting a label-led clause on its label, when the label does not
recur in the content, yields the empty string then the content. -/
lemma pySplit_label (label : String) (content : List Char) (s : Char) (ss : List Char)
    (hlab : label.data = s :: ss) (hno : hasOcc s ss content = false) :
    pySplit (label.data ++ content) label.data = [[], content] := by
  rw [hlab, pySplit_sep_head s ss content, pySplit_noOcc s ss content hno]

lemma data_mk (l : List Char) : (String.mk l).data = l := rfl

lemma pyIndex_oob (l : List α) (i : Nat) (h : l.length ≤ i) :
    pyIndex l i = Except.error PyError.indexError := by
  simp only [pyIndex]
  rw [List.get?_eq_none.mpr h]

/-- Claim C5, amended: for a purpose string of exactly four separator-
delimited clauses each carrying its correct label prefix (with no stray
separator or label occurrence inside the clause contents), the
decomposition yields the four sub-fields in the fixed order clinical
focus, data-element scope, inclusion criteria, exclusion criteria, each
equal to the text after its label (the fourth keeping its trailing
closing paren, hence always non-empty; the first three are non-empty
whenever the text after the label is non-empty, and empty otherwise —
see the counterexample).  For malformed input, fewer than four clauses or
a clause missing its label, the decomposition raises an out-of-range
index error instead of silently truncating. -/
theorem vsac_purpose_decomposition (a b c d : List Char)
    (ha : hasOcc ')' [','] (labelCF.data ++ a) = false)
    (hb : hasOcc ')' [','] (labelDES.data ++ b) = false)
    (hc : hasOcc ')' [','] (labelIC.data ++ c) = false)
    (hd : hasOcc ')' [','] (labelEC.data ++ (d ++ [')'])) = false)
    (ha2 : hasOcc '(' ("Clinical Focus: ").data a = false)
    (hb2 : hasOcc '(' ("Data Element Scope: ").data b = false)
    (hc2 : hasOcc '(' ("Inclusion Criteria: ").data c = false)
    (hd2 : hasOcc '(' ("Exclusion Criteria: ").data (d ++ [')']) = false) :
    (vsac_to_vsac_intention (mkPurpose a b c d) =
      Except.ok (String.mk a, String.mk b, String.mk c, String.mk (d ++ [')']))) ∧
    String.mk (d ++ [')']) ≠ "" ∧
    (a ≠ [] → String.mk a ≠ "") ∧
    (b ≠ [] → String.mk b ≠ "") ∧
    (c ≠ [] → String.mk c ≠ "") ∧
    (∀ q : String, (pySplitStr q "),").length < 4 →
      vsac_to_vsac_intention q = Except.error PyError.indexError) ∧
    (∀ (q p0 p1 p2 p3 : String),
      pySplitStr q ")," = [p0, p1, p2, p3] →
      ((pySplitStr p0 labelCF).length ≤ 1 ∨ (pySplitStr p1 labelDES).length ≤ 1 ∨
       (pySplitStr p2 labelIC).length ≤ 1 ∨ (pySplitStr p3 labelEC).length ≤ 1) →
      vsac_to_vsac_intention q = Except.error PyError.indexError) := by
  refine ⟨?_, ?_, ?_, ?_, ?_, ?_, ?_⟩
  · have hsep : ((")," : String)).data = [')', ','] := rfl
    have hsplit : pySplit (mkPurpose a b c d).data [')', ','] =
        [labelCF.data ++ a, labelDES.data ++ b, labelIC.data ++ c,
         labelEC.data ++ (d ++ [')'])] := by
      show pySplit ((labelCF.data ++ a) ++ ')' :: ',' :: _) [')', ','] = _
      rw [pySplit_block ')' ',' (by decide) _ _ ha,
          pySplit_block ')' ',' (by decide) _ _ hb,
          pySplit_block ')' ',' (by decide) _ _ hc,
          pySplit_noOcc ')' [','] _ hd]
    have hpur : pySplitStr (mkPurpose a b c d) ")," =
        [String.mk (labelCF.data ++ a), String.mk (labelDES.data ++ b),
         String.mk (labelIC.data ++ c), String.mk (labelEC.data ++ (d ++ [')']))] := by
      simp only [pySplitStr, hsep, hsplit, List.map]
    have hcf : pySplitStr (String.mk (labelCF.data ++ a)) labelCF =
        [String.mk [], String.mk a] := by
      simp only [pySplitStr, data_mk,
        pySplit_label labelCF a '(' (("Clinical Focus: " : String)).data rfl ha2, List.map]
    have hdes : pySplitStr (String.mk (labelDES.data ++ b)) labelDES =
        [String.mk [], String.mk b] := by
      simp only [pySplitStr, data_mk,
        pySplit_label labelDES b '(' (("Data Element Scope: " : String)).data rfl hb2, List.map]
    have hic : pySplitStr (String.mk (labelIC.data ++ c)) labelIC =
        [String.mk [], String.mk c] := by
      simp only [pySplitStr, data_mk,
        pySplit_label labelIC c '(' (("Inclusion Criteria: " : String)).data rfl hc2, List.map]
    have hec : pySplitStr (String.mk (labelEC.data ++ (d ++ [')']))) labelEC =
        [String.mk [], String.mk (d ++ [')'])] := by
      simp only [pySplitStr, data_mk,
        pySplit_label labelEC (d ++ [')']) '(' (("Exclusion Criteria: " : String)).data rfl hd2,
        List.map]
    simp only [vsac_to_vsac_intention, hpur, pyIndex, List.get?, hcf, hdes, hic, hec]
  · intro hcontra
    have hnil : d ++ [')'] = [] := by
      simp only [String.ext_iff, data_mk] at hcontra
      exact hcontra
    simp at hnil
  · intro hne hcontra
    exact hne (by simpa [String.ext_iff, data_mk] using hcontra)
  · intro hne hcontra
    exact hne (by simpa [String.ext_iff, data_mk] using hcontra)
  · intro hne hcontra
    exact hne (by simpa [String.ext_iff, data_mk] using hcontra)
  · intro q hq
    simp only [vsac_to_vsac_intention]
    cases h0 : pyIndex (pySplitStr q "),") 0 with
    | error e => rw [pyIndex_error_eq _ _ _ h0]
    | ok p0 =>
      dsimp only
      cases h1 : pyIndex (pySplitStr p0 labelCF) 1 with
      | error e => rw [pyIndex_error_eq _ _ _ h1]
      | ok cf =>
        dsimp only
        cases h2 : pyIndex (pySplitStr q "),") 2 with
        | error e => rw [pyIndex_error_eq _ _ _ h2]
        | ok p2 =>
          dsimp only
          cases h3 : pyIndex (pySplitStr p2 labelIC) 1 with
          | error e => rw [pyIndex_error_eq _ _ _ h3]
          | ok ic =>
            dsimp only
            cases h4 : pyIndex (pySplitStr q "),") 1 with
            | error e => rw [pyIndex_error_eq _ _ _ h4]
            | ok p1 =>
              dsimp only
              cases h5 : pyIndex (pySplitStr p1 labelDES) 1 with
              | error e => rw [pyIndex_error_eq _ _ _ h5]
              | ok des =>
                dsimp only
                rw [pyIndex_oob _ _ (by omega)]
  · intro q p0 p1 p2 p3 hq hdisj
    simp only [vsac_to_vsac_intention, hq,
      show pyIndex [p0, p1, p2, p3] 0 = Except.ok p0 from rfl,
      show pyIndex [p0, p1, p2, p3] 1 = Except.ok p1 from rfl,
      show pyIndex [p0, p1, p2, p3] 2 = Except.ok p2 from rfl,
      show pyIndex [p0, p1, p2, p3] 3 = Except.ok p3 from rfl]
    cases h1 : pyIndex (pySplitStr p0 labelCF) 1 with
    | error e => rw [pyIndex_error_eq _ _ _ h1]
    | ok cf =>
      dsimp only
      have l0 : 1 < (pySplitStr p0 labelCF).length := pyIndex_ok_lt _ _ _ h1
      cases h3 : pyIndex (pySplitStr p2 labelIC) 1 with
      | error e => rw [pyIndex_error_eq _ _ _ h3]
      | ok ic =>
        dsimp only
        have l2 : 1 < (pySplitStr p2 labelIC).length := pyIndex_ok_lt _ _ _ h3
        cases h5 : pyIndex (pySplitStr p1 labelDES) 1 with
        | error e => rw [pyIndex_error_eq _ _ _ h5]
        | ok des =>
          dsimp only
          have l1 : 1 < (pySplitStr p1 labelDES).length := pyIndex_ok_lt _ _ _ h5
          rw [pyIndex_oob _ _ (by rcases hdisj with h | h | h | h <;> omega)]

/-- Witness for vsac_purpose_decomposition at concrete clause contents. -/
theorem vsac_purpose_decomposition_witness :
    (vsac_to_vsac_intention
        (mkPurpose ("asthma").data ("FHIR Condition.code").data ("SNOMED concepts").data
          ("none").data) =
      Except.ok (String.mk ("asthma").data, String.mk ("FHIR Condition.code").data,
        String.mk ("SNOMED concepts").data, String.mk (("none").data ++ [')']))) ∧
    String.mk (("none").data ++ [')']) ≠ "" ∧
    (("asthma").data ≠ [] → String.mk ("asthma").data ≠ "") ∧
    (("FHIR Condition.code").data ≠ [] → String.mk ("FHIR Condition.code").data ≠ "") ∧
    (("SNOMED concepts").data ≠ [] → String.mk ("SNOMED concepts").data ≠ "") ∧
    (∀ q : String, (pySplitStr q "),").length < 4 →
      vsac_to_vsac_intention q = Except.error PyError.indexError) ∧
    (∀ (q p0 p1 p2 p3 : String),
      pySplitStr q ")," = [p0, p1, p2, p3] →
      ((pySplitStr p0 labelCF).length ≤ 1 ∨ (pySplitStr p1 labelDES).length ≤ 1 ∨
       (pySplitStr p2 labelIC).length ≤ 1 ∨ (pySplitStr p3 labelEC).length ≤ 1) →
      vsac_to_vsac_intention q = Except.error PyError.indexError) :=
  vsac_purpose_decomposition ("asthma").data ("FHIR Condition.code").data
    ("SNOMED concepts").data ("none").data (by decide) (by decide) (by decide) (by decide)
    (by decide) (by decide) (by decide) (by decide)

/-- A purpose annotation whose four clauses all carry their correct labels
but whose clinical-focus clause has empty content. -/
def c5BadPurpose : String :=
  "(Clinical Focus: ),(Data Element Scope: b),(Inclusion Criteria: c),(Exclusion Criteria: d)"

/-- Counterexample to claim C5 as stated: this purpose string has exactly
four separator-delimited clauses, each carrying its correct label prefix,
yet the decomposition yields an EMPTY clinical-focus sub-field, so the
claim's universally quantified "exactly four non-empty sub-fields" is
false; no error is raised either. -/
theorem vsac_purpose_decomposition_counterexample :
    pySplitStr c5BadPurpose ")," =
      ["(Clinical Focus: ", "(Data Element Scope: b", "(Inclusion Criteria: c",
       "(Exclusion Criteria: d)"] ∧
    (labelCF.data.isPrefixOf ("(Clinical Focus: " : String).data = true ∧
     labelDES.data.isPrefixOf ("(Data Element Scope: b" : String).data = true ∧
     labelIC.data.isPrefixOf ("(Inclusion Criteria: c" : String).data = true ∧
     labelEC.data.isPrefixOf ("(Exclusion Criteria: d)" : String).data = true) ∧
    vsac_to_vsac_intention c5BadPurpose = Except.ok ("", "b", "c", "d)") :=
  ⟨by decide, by decide, rfl⟩

/-! Embedding of _datetime_palantir_format (vsac_wrangler/main.py lines
48-51 and enclave_wrangler/main.py lines 47-50, two identical copies):
datetime.now(timezone.utc).strftime of year, month, day, hour, minute,
second and 6-digit microseconds, then Python slicing [:-4] and appending
the Z suffix, truncating microseconds to milliseconds. -/

/-- A UTC instant as datetime.now(timezone.utc) yields it.  The strftime
renderings below match CPython on instants satisfying Valid (months two
digits zero-padded etc., and the year rendered unpadded, which has four
digits exactly for years 1000-9999 — datetime years reachable from now()
always are). -/
structure PyDatetime where
  year : Nat
  month : Nat
  day : Nat
  hour : Nat
  minute : Nat
  second : Nat
  microsecond : Nat
deriving DecidableEq, Repr

/-- The invariants CPython's datetime guarantees for now(), with the year
range where the unpadded %Y rendering has exactly four digits. -/
def PyDatetime.Valid (dt : PyDatetime) : Prop :=
  1000 ≤ dt.year ∧ dt.year ≤ 9999 ∧ 1 ≤ dt.month ∧ dt.month ≤ 12 ∧
  1 ≤ dt.day ∧ dt.day ≤ 31 ∧ dt.hour ≤ 23 ∧ dt.minute ≤ 59 ∧ dt.second ≤ 59 ∧
  dt.microsecond ≤ 999999

/-- The decimal digit character for n mod 10. -/
def digitChar (n : Nat) : Char := Char.ofNat (48 + n % 10)

/-- Two-digit zero-padded rendering (strftime %m, %d, %H, %M, %S on valid
fields). -/
def twoDigits (n : Nat) : List Char := [digitChar (n / 10), digitChar n]

/-- Four-digit rendering (strftime %Y on years 1000-9999). -/
def fourDigits (n : Nat) : List Char :=
  [digitChar (n / 1000), digitChar (n / 100), digitChar (n / 10), digitChar n]

/-- Six-digit zero-padded rendering (strftime %f). -/
def sixDigits (n : Nat) : List Char :=
  [digitChar (n / 100000), digitChar (n / 10000), digitChar (n / 1000),
   digitChar (n / 100), digitChar (n / 10), digitChar n]

/-- strftime of the pattern year-month-dayThour:minute:second.microsecondsZ
at microsecond precision. -/
def strftimeMicroZ (dt : PyDatetime) : List Char :=
  fourDigits dt.year ++ '-' :: twoDigits dt.month ++ '-' :: twoDigits dt.day ++
    'T' :: twoDigits dt.hour ++ ':' :: twoDigits dt.minute ++ ':' :: twoDigits dt.second ++
      '.' :: sixDigits dt.microsecond ++ ['Z']

/-- The timestamp formatter: strftime to microsecond precision, Python
slice [:-4], then append the Z suffix. -/
def _datetime_palantir_format (dt : PyDatetime) : String :=
  String.mk ((strftimeMicroZ dt).take ((strftimeMicroZ dt).length - 4) ++ ['Z'])

/-- Decides the regular expression pattern of four digits, dash, two
digits, dash, two digits, T, two digits, colon, two digits, colon, two
digits, dot, three digits, Z — matching the whole string exactly. -/
def tsPattern (s : String) : Bool :=
  match s.data with
  | [y1, y2, y3, y4, s1, m1, m2, s2, d1, d2, s3, h1, h2, s4, n1, n2, s5, e1, e2, s6,
     f1, f2, f3, s7] =>
    ([y1, y2, y3, y4, m1, m2, d1, d2, h1, h2, n1, n2, e1, e2, f1, f2, f3].all Char.isDigit) &&
    (s1 == '-') && (s2 == '-') && (s3 == 'T') && (s4 == ':') && (s5 == ':') &&
    (s6 == '.') && (s7 == 'Z')
  | _ => false

lemma digitChar_isDigit (n : Nat) : (digitChar n).isDigit = true := by
  have h : n % 10 < 10 := Nat.mod_lt _ (by omega)
  unfold digitChar
  interval_cases h : n % 10 <;> decide

/-- Claim C7: for every valid instant, the timestamp formatter returns a
string matching the millisecond-precision UTC pattern with trailing Z
exactly, and the string is the microsecond-precision rendering with its
last four characters dropped and Z appended. -/
theorem datetime_palantir_format_pattern (dt : PyDatetime) (_hv : dt.Valid) :
    tsPattern (_datetime_palantir_format dt) = true ∧
    (_datetime_palantir_format dt).data =
      (strftimeMicroZ dt).take ((strftimeMicroZ dt).length - 4) ++ ['Z'] := by
  constructor
  · simp only [tsPattern, _datetime_palantir_format, strftimeMicroZ, fourDigits, twoDigits,
      sixDigits, data_mk, List.cons_append, List.nil_append, List.length_cons,
      List.length_nil, List.take, List.all, digitChar_isDigit]
    decide
  · rfl

/-- Witness for datetime_palantir_format_pattern at a fixed instant. -/
theorem datetime_palantir_format_pattern_witness :
    tsPattern (_datetime_palantir_format (PyDatetime.mk 2021 3 3 13 24 48 123456)) = true ∧
    (_datetime_palantir_format (PyDatetime.mk 2021 3 3 13 24 48 123456)).data =
      (strftimeMicroZ (PyDatetime.mk 2021 3 3 13 24 48 123456)).take
        ((strftimeMicroZ (PyDatetime.mk 2021 3 3 13 24 48 123456)).length - 4) ++ ['Z'] :=
  datetime_palantir_format_pattern (PyDatetime.mk 2021 3 3 13 24 48 123456)
    (by refine ⟨?_, ?_, ?_, ?_, ?_, ?_, ?_, ?_, ?_, ?_⟩ <;> decide)

/-! Embedding of vsac_wrangler/vsac_api.py.  The module-level mutable
_ticket_granting_ticket becomes explicit state, and each HTTP request is
recorded in a log; the remote service and the external parsing libraries
(BeautifulSoup, urllib3, xmltodict) become an environment of oracles.
The response STATUS CODES are part of the environment but, like the
source, none of the embedded functions ever reads them. -/

/-- The HTTP requests vsac_api.py can issue. -/
inductive VRequest
  | identityPost
  | ticketPost (tgt : String)
  | retrieveGet (url : String)
deriving DecidableEq, Repr

/-- The parse result of xmltodict on the bulk-retrieval response, shaped
as the two-level dictionary the source indexes into. -/
abbrev XParsed := List (String × List (String × List ValueSet))

/-- The remote service and external libraries as oracles.  identityBody is
response.text of the api-key POST; extractTgt stands for the BeautifulSoup
form/action extraction plus URL-path-last-segment step; ticketBody maps
the TGT to response2.text; retrieveBody maps the GET url to the XML text;
parseXml is xmltodict.parse, none meaning its ExpatError. -/
structure VsacEnv where
  identityStatus : Nat
  identityBody : String
  extractTgt : String → String
  ticketStatus : Nat
  ticketBody : String → String
  retrieveStatus : Nat
  retrieveBody : String → String
  parseXml : String → Option XParsed

/-- The module state: the cached TGT and the log of issued requests. -/
structure VsacState where
  tgtCache : Option String
  requests : List VRequest
deriving DecidableEq, Repr

/-- The fresh-process state: nothing cached, nothing issued. -/
def initVsacState : VsacState := VsacState.mk none []

/-- get_ticket_granting_ticket (vsac_api.py lines 23-41): return the
cached TGT unchanged if present, otherwise POST the api key to the
identity endpoint, extract the TGT from the HTML body, cache it and return
it. -/
def get_ticket_granting_ticket (env : VsacEnv) (s : VsacState) : String × VsacState :=
  match s.tgtCache with
  | some t => (t, s)
  | none =>
    let tgt := env.extractTgt env.identityBody
    (tgt, VsacState.mk (some tgt) (s.requests ++ [VRequest.identityPost]))

/-- get_service_ticket (vsac_api.py lines 44-61): obtain the TGT, POST to
the ticket-issuance endpoint scoped by it, and return the raw response
body as the ticket; the response status is never inspected. -/
def get_service_ticket (env : VsacEnv) (s : VsacState) : String × VsacState :=
  let r := get_ticket_granting_ticket env s
  let body := env.ticketBody r.1
  (body, VsacState.mk r.2.tgtCache (r.2.requests ++ [VRequest.ticketPost r.1]))

/-- Python dict access d[k] with KeyError on a missing key. -/
def pyDictGet (m : List (String × α)) (k : String) : Except PyError α :=
  match m.lookup k with
  | some v => Except.ok v
  | none => Except.error PyError.keyError

/-- The bulk-retrieval URL of get_value_sets (vsac_api.py line 85). -/
def retrieveUrl (oids : List String) (ticket : String) : String :=
  "https://vsac.nlm.nih.gov/vsac/svs/RetrieveMultipleValueSets?id=" ++
    String.intercalate "," oids ++ "&ticket=" ++ ticket

/-- get_value_sets (vsac_api.py lines 81-93): join the OIDs, mint one
fresh service ticket, GET the bulk url, parse the XML (the parser's own
ExpatError on unparsable bodies), then index the two wrapper keys
(KeyError if absent); the response status is never inspected. -/
def get_value_sets (env : VsacEnv) (oids : List String) (s : VsacState) :
    Except PyError (List ValueSet) × VsacState :=
  let r := get_service_ticket env s
  let url := retrieveUrl oids r.1
  let body := env.retrieveBody url
  let s2 := VsacState.mk r.2.tgtCache (r.2.requests ++ [VRequest.retrieveGet url])
  match env.parseXml body with
  | none => (Except.error PyError.expatError, s2)
  | some d =>
    match pyDictGet d "ns0:RetrieveMultipleValueSetsResponse" with
    | Except.error e => (Except.error e, s2)
    | Except.ok d2 =>
      match pyDictGet d2 "ns0:DescribedValueSet" with
      | Except.error e => (Except.error e, s2)
      | Except.ok vsets => (Except.ok vsets, s2)

/-- Counts the identity-endpoint POSTs in a request log. -/
def countIdentity (l : List VRequest) : Nat :=
  l.countP (fun r => match r with | VRequest.identityPost => true | _ => false)

/-- Counts the ticket-issuance POSTs in a request log. -/
def countTicket (l : List VRequest) : Nat :=
  l.countP (fun r => match r with | VRequest.ticketPost _ => true | _ => false)

/-- Claim C3: once a TGT is cached, get_ticket_granting_ticket returns the
cached value with the state (hence the request log) unchanged; and two
consecutive get_service_ticket calls from the fresh-process state issue
exactly one identity POST and exactly two ticket-issuance POSTs. -/
theorem tgt_cache_behaviour (env : VsacEnv) (s : VsacState) (t : String)
    (h : s.tgtCache = some t) :
    get_ticket_granting_ticket env s = (t, s) ∧
    (let r1 := get_service_ticket env initVsacState
     let r2 := get_service_ticket env r1.2
     countIdentity r2.2.requests = 1 ∧ countTicket r2.2.requests = 2) := by
  constructor
  · simp [get_ticket_granting_ticket, h]
  · simp [get_service_ticket, get_ticket_granting_ticket, initVsacState, countIdentity,
      countTicket, List.countP_append, List.countP_cons]

/-- Witness for tgt_cache_behaviour at a concrete environment and a state
with a cached TGT. -/
theorem tgt_cache_behaviour_witness :
    (get_ticket_granting_ticket
        (VsacEnv.mk 200 "html" (fun _ => "TGT-EXTRACTED") 200 (fun _ => "ST") 200
          (fun _ => "<xml/>") (fun _ => none))
        (VsacState.mk (some "TGT-CACHED") []) =
      ("TGT-CACHED", VsacState.mk (some "TGT-CACHED") [])) ∧
    (let r1 := get_service_ticket
        (VsacEnv.mk 200 "html" (fun _ => "TGT-EXTRACTED") 200 (fun _ => "ST") 200
          (fun _ => "<xml/>") (fun _ => none)) initVsacState
     let r2 := get_service_ticket
        (VsacEnv.mk 200 "html" (fun _ => "TGT-EXTRACTED") 200 (fun _ => "ST") 200
          (fun _ => "<xml/>") (fun _ => none)) r1.2
     countIdentity r2.2.requests = 1 ∧ countTicket r2.2.requests = 2) :=
  tgt_cache_behaviour
    (VsacEnv.mk 200 "html" (fun _ => "TGT-EXTRACTED") 200 (fun _ => "ST") 200
      (fun _ => "<xml/>") (fun _ => none))
    (VsacState.mk (some "TGT-CACHED") []) "TGT-CACHED" rfl

/-- Claim C4, amended: get_service_ticket never inspects the
ticket-issuance response status and returns the raw response body as the
ticket in every case (there is no AuthError and no failure path);
get_value_sets never inspects the bulk-fetch response status (no
RemoteError), and when the response body cannot be parsed the error
surfaced is the XML parser's own ExpatError, not a FetchError. -/
theorem vsac_api_no_status_check (env : VsacEnv) (s : VsacState) (n m : Nat)
    (oids : List String) :
    (get_service_ticket (VsacEnv.mk env.identityStatus env.identityBody env.extractTgt n
        env.ticketBody env.retrieveStatus env.retrieveBody env.parseXml) s =
      get_service_ticket (VsacEnv.mk env.identityStatus env.identityBody env.extractTgt m
        env.ticketBody env.retrieveStatus env.retrieveBody env.parseXml) s) ∧
    ((get_service_ticket env s).1 =
      env.ticketBody (get_ticket_granting_ticket env s).1) ∧
    (get_value_sets (VsacEnv.mk env.identityStatus env.identityBody env.extractTgt
        env.ticketStatus env.ticketBody n env.retrieveBody env.parseXml) oids s =
      get_value_sets (VsacEnv.mk env.identityStatus env.identityBody env.extractTgt
        env.ticketStatus env.ticketBody m env.retrieveBody env.parseXml) oids s) ∧
    (env.parseXml (env.retrieveBody (retrieveUrl oids (get_service_ticket env s).1)) = none →
      (get_value_sets env oids s).1 = Except.error PyError.expatError) := by
  refine ⟨rfl, rfl, rfl, ?_⟩
  intro hparse
  simp only [get_value_sets, hparse]

/-- A concrete environment whose ticket-issuance and bulk-fetch endpoints
answer with status 500 and whose bulk response body is unparsable. -/
def c4Env : VsacEnv :=
  VsacEnv.mk 200 "html" (fun _ => "TGT-1") 500 (fun _ => "RAW-TICKET-BODY") 500
    (fun _ => "not-xml") (fun _ => none)

/-- Counterexample to claim C4 as stated: with the ticket-issuance
endpoint answering status 500 (non-2xx), get_service_ticket does not
raise (no AuthError exists anywhere in the module; the call completes
normally) and still returns the raw response body as the ticket; and with
the bulk fetch answering 500 with an unparsable body, get_value_sets
raises the XML parser's own ExpatError, not FetchError, never RemoteError. -/
theorem vsac_api_no_status_check_counterexample :
    c4Env.ticketStatus = 500 ∧
    (get_service_ticket c4Env initVsacState).1 = "RAW-TICKET-BODY" ∧
    c4Env.retrieveStatus = 500 ∧
    (get_value_sets c4Env ["2.16.840.1.113883.0.0"] initVsacState).1 =
      Except.error PyError.expatError :=
  ⟨rfl, rfl, rfl, rfl⟩

/-- Witness for vsac_api_no_status_check at a concrete environment. -/
theorem vsac_api_no_status_check_witness :
    (get_service_ticket (VsacEnv.mk c4Env.identityStatus c4Env.identityBody c4Env.extractTgt 500
        c4Env.ticketBody c4Env.retrieveStatus c4Env.retrieveBody c4Env.parseXml) initVsacState =
      get_service_ticket (VsacEnv.mk c4Env.identityStatus c4Env.identityBody c4Env.extractTgt 200
        c4Env.ticketBody c4Env.retrieveStatus c4Env.retrieveBody c4Env.parseXml) initVsacState) ∧
    ((get_service_ticket c4Env initVsacState).1 =
      c4Env.ticketBody (get_ticket_granting_ticket c4Env initVsacState).1) ∧
    (get_value_sets (VsacEnv.mk c4Env.identityStatus c4Env.identityBody c4Env.extractTgt
        c4Env.ticketStatus c4Env.ticketBody 500 c4Env.retrieveBody c4Env.parseXml)
        ["2.16.840.1.113883.0.0"] initVsacState =
      get_value_sets (VsacEnv.mk c4Env.identityStatus c4Env.identityBody c4Env.extractTgt
        c4Env.ticketStatus c4Env.ticketBody 200 c4Env.retrieveBody c4Env.parseXml)
        ["2.16.840.1.113883.0.0"] initVsacState) ∧
    (get_value_sets c4Env ["2.16.840.1.113883.0.0"] initVsacState).1 =
      Except.error PyError.expatError :=
  (vsac_api_no_status_check c4Env initVsacState 500 200 ["2.16.840.1.113883.0.0"]).imp
    id (fun h2 => h2.imp id (fun h3 => h3.imp id (fun h4 => h4 rfl)))

/-! Embedding of enclave_wrangler/main.py (the run function, lines
53-173).  The helper module enclave_wrangler/enclave_api.py is not among
the provided sources, so its payload builders and POST wrappers are
modelled from the spec (each such definition says so in its doc comment);
the CSV inputs become typed row lists carrying the columns run reads, and
the remote service becomes an oracle environment while each POST is
recorded in order. -/

/-- One concept_set_container_edited.csv row, with the column run reads. -/
structure EnclaveContainerRow where
  concept_set_name : String
deriving DecidableEq, Repr

/-- One code_sets.csv row, with the columns run reads. -/
structure EnclaveCodeSetRow where
  codeset_id : Nat
  concept_set_name : String
  intention : String
  limitations : String
  update_message : String
  provenance : String
deriving DecidableEq, Repr

/-- One concept_set_version_item_rv_edited.csv row, with the columns run
reads (annot is the source's annotation column). -/
structure EnclaveItemRow where
  codeset_id : Nat
  code : String
  codeSystem : String
  isExcluded : Bool
  includeDescendants : Bool
  includeMapped : Bool
  annot : String
deriving DecidableEq, Repr

/-- The three CSV inputs of run. -/
structure EnclaveInput where
  containers : List EnclaveContainerRow
  codeSets : List EnclaveCodeSetRow
  items : List EnclaveItemRow
deriving DecidableEq, Repr

/-- Modelled from the spec: get_cs_container_data lives in
enclave_wrangler/enclave_api.py, which is not among the provided sources;
per spec sections 4.4 and 6 it builds the create-container JSON payload
from the concept-set name. -/
structure ContainerPayload where
  name : String
deriving DecidableEq, Repr

/-- Modelled from the spec: get_cs_version_data (enclave_api.py, not in
the provided sources) builds the create-version JSON payload from the
code_sets row fields passed at enclave_wrangler/main.py line 86; per spec
section 3 the version payload references the container's name. -/
structure VersionPayload where
  csName : String
  codesetId : Nat
  intention : String
  limitations : String
  updateMsg : String
  provenance : String
deriving DecidableEq, Repr

/-- Modelled from the spec: the expression-items JSON payload built by
get_cs_version_expression_data (enclave_api.py, not in the provided
sources); its version-reference field initially holds the locally
synthesized codeset id, to be rewritten with the server-assigned version
id before stage 3 submits it (spec sections 3 and 4.4). -/
structure ExprItemsPayload where
  codesetId : Nat
  versionRef : String
  csName : String
  codeList : List String
  exclude : Bool
  descendants : Bool
  mapped : Bool
  annot : String
deriving DecidableEq, Repr

/-- Modelled from the spec: get_cs_container_data. -/
def get_cs_container_data (name : String) : ContainerPayload :=
  ContainerPayload.mk name

/-- Modelled from the spec: get_cs_version_data. -/
def get_cs_version_data (csName : String) (csId : Nat)
    (intention limitations updateMsg provenance : String) : VersionPayload :=
  VersionPayload.mk csName csId intention limitations updateMsg provenance

/-- Modelled from the spec: get_cs_version_expression_data; the
version-reference field starts out as the pre-assigned synthetic codeset
id. -/
def get_cs_version_expression_data (csId : Nat) (csName : String) (codeList : List String)
    (exclude descendants mapped : Bool) (annot : String) : ExprItemsPayload :=
  ExprItemsPayload.mk csId (toString csId) csName codeList exclude descendants mapped annot

/-- Modelled from the spec: update_cs_version_expression_data_with_codesetid
rewrites the payload's version-reference field with the server-assigned
version id obtained from the create-version call (spec section 4.4 stage 3). -/
def update_cs_version_expression_data_with_codesetid (versionId : String)
    (p : ExprItemsPayload) : ExprItemsPayload :=
  ExprItemsPayload.mk p.codesetId versionId p.csName p.codeList p.exclude p.descendants
    p.mapped p.annot

/-- The remote enclave service as an oracle: the version id its
create-version action assigns (modelled from the spec: the POST wrappers
post_request_enclave_api* live in enclave_api.py, not in the provided
sources; per spec section 4.4 the create-version response carries the
server-assigned version identifier), and the response body of the final
expression-items action. -/
structure EnclaveEnv where
  versionIdFor : VersionPayload → String
  itemsResponse : ExprItemsPayload → String

/-- The POSTs run issues, in order. -/
inductive EnclavePost
  | containerPost (p : ContainerPayload)
  | versionPost (p : VersionPayload)
  | itemsPost (p : ExprItemsPayload)
deriving DecidableEq, Repr

/-- The list of container payloads (main.py lines 69-72). -/
def concept_set_container_edited_json_all_rows (inp : EnclaveInput) : List ContainerPayload :=
  inp.containers.map (fun r => get_cs_container_data r.concept_set_name)

/-- The list of version payloads (main.py lines 78-88). -/
def code_set_version_json_all_rows (inp : EnclaveInput) : List VersionPayload :=
  inp.codeSets.map (fun r => get_cs_version_data r.concept_set_name r.codeset_id r.intention
    r.limitations r.update_message r.provenance)

/-- One step of the codeset_id grouping dict (main.py lines 90-95):
append the row to its codeset's bucket, creating the bucket on first
sight. -/
def addItem (m : List (Nat × List EnclaveItemRow)) (k : Nat) (r : EnclaveItemRow) :
    List (Nat × List EnclaveItemRow) :=
  match m with
  | [] => [(k, [r])]
  | (k', v) :: rest => if k' = k then (k', v ++ [r]) :: rest else (k', v) :: addItem rest k r

/-- concept_set_version_item_dict (main.py lines 90-95). -/
def concept_set_version_item_dict (items : List EnclaveItemRow) :
    List (Nat × List EnclaveItemRow) :=
  items.foldl (fun m r => addItem m r.codeset_id r) []

/-- The codeSystem:code pair string of main.py line 106. -/
def codePair (r : EnclaveItemRow) : String := r.codeSystem ++ ":" ++ r.code

/-- The inner loop of main.py lines 105-121: the code list grows by one
pair per item row, and one expression-items payload is appended per item
row, built from the code list so far and the FIRST row's flags. -/
def exprLoop (csId : Nat) (csName : String) (first : EnclaveItemRow) :
    List EnclaveItemRow → List String → List ExprItemsPayload
  | [], _ => []
  | r :: rest, codeList =>
    let cl := codeList ++ [codePair r]
    get_cs_version_expression_data csId csName cl first.isExcluded first.includeDescendants
        first.includeMapped first.annot ::
      exprLoop csId csName first rest cl

/-- The expression-items payloads of one code_sets row (main.py lines
97-121): the dict access raises KeyError when the codeset has no item
rows; rows[0] is only read inside the loop, so an empty bucket yields no
payloads. -/
def exprRowsFor (inp : EnclaveInput) (cs : EnclaveCodeSetRow) :
    Except PyError (List ExprItemsPayload) :=
  match (concept_set_version_item_dict inp.items).lookup cs.codeset_id with
  | none => Except.error PyError.keyError
  | some l =>
    match l with
    | [] => Except.ok []
    | first :: _ => Except.ok (exprLoop cs.codeset_id cs.concept_set_name first l [])

/-- code_set_expression_items_json_all_rows (main.py lines 66, 97-121). -/
def code_set_expression_items_json_all_rows (inp : EnclaveInput) :
    Except PyError (List ExprItemsPayload) :=
  match mapE (exprRowsFor inp) inp.codeSets with
  | Except.error e => Except.error e
  | Except.ok parts => Except.ok parts.flatten

/-- run (main.py lines 53-173), with its three sequential POSTs logged in
order: build all payload lists, then validate/create the first container,
create the first version obtaining the server-assigned version id,
rewrite the first expression-items payload with that id and submit it.
Indexing an empty payload list raises IndexError, after which no further
POST happens. -/
def run (env : EnclaveEnv) (inp : EnclaveInput) : List EnclavePost × Except PyError String :=
  match code_set_expression_items_json_all_rows inp with
  | Except.error e => ([], Except.error e)
  | Except.ok exprRows =>
    match pyIndex (concept_set_container_edited_json_all_rows inp) 0 with
    | Except.error e => ([], Except.error e)
    | Except.ok c0 =>
      match pyIndex (code_set_version_json_all_rows inp) 0 with
      | Except.error e => ([EnclavePost.containerPost c0], Except.error e)
      | Except.ok v0 =>
        let versionId := env.versionIdFor v0
        match pyIndex exprRows 0 with
        | Except.error e =>
          ([EnclavePost.containerPost c0, EnclavePost.versionPost v0], Except.error e)
        | Except.ok e0 =>
          let upd := update_cs_version_expression_data_with_codesetid versionId e0
          ([EnclavePost.containerPost c0, EnclavePost.versionPost v0, EnclavePost.itemsPost upd],
            Except.ok (env.itemsResponse upd))

lemma mapE_ok_of_mem (f : α → Except PyError β) :
    ∀ (l : List α) (out : List β), mapE f l = Except.ok out →
      ∀ a ∈ l, ∃ b, f a = Except.ok b := by
  intro l
  induction l with
  | nil => intro out h a ha; simp at ha
  | cons a0 t ih =>
    intro out h a ha
    simp only [mapE] at h
    cases hfa : f a0 <;> rw [hfa] at h
    · simp at h
    case ok b0 =>
      cases hrec : mapE f t <;> rw [hrec] at h
      · simp at h
      case ok bs =>
        rcases List.mem_cons.mp ha with h1 | h2
        · exact ⟨b0, by rw [h1]; exact hfa⟩
        · exact ih bs hrec a h2

lemma exprLoop_length (csId : Nat) (csName : String) (first : EnclaveItemRow) :
    ∀ (pending : List EnclaveItemRow) (acc : List String),
      (exprLoop csId csName first pending acc).length = pending.length := by
  intro pending
  induction pending with
  | nil => intro acc; rfl
  | cons r rest ih => intro acc; simp [exprLoop, ih]

lemma exprLoop_get (csId : Nat) (csName : String) (first : EnclaveItemRow) :
    ∀ (pending : List EnclaveItemRow) (acc : List String) (k : Nat)
      (hk : k < (exprLoop csId csName first pending acc).length),
      (exprLoop csId csName first pending acc).get ⟨k, hk⟩ =
        get_cs_version_expression_data csId csName (acc ++ (pending.take (k + 1)).map codePair)
          first.isExcluded first.includeDescendants first.includeMapped first.annot := by
  intro pending
  induction pending with
  | nil => intro acc k hk; simp [exprLoop] at hk
  | cons r rest ih =>
    intro acc k hk
    cases k with
    | zero => simp [exprLoop]
    | succ j =>
      simp only [exprLoop, List.get_cons_succ]
      rw [ih (acc ++ [codePair r]) j _]
      simp [List.append_assoc]

lemma exprLoop_mem (csId : Nat) (csName : String) (first : EnclaveItemRow) :
    ∀ (pending : List EnclaveItemRow) (acc : List String) (p : ExprItemsPayload),
      p ∈ exprLoop csId csName first pending acc →
      p.versionRef = toString csId ∧ p.codesetId = csId := by
  intro pending
  induction pending with
  | nil => intro acc p hp; simp [exprLoop] at hp
  | cons r rest ih =>
    intro acc p hp
    simp only [exprLoop, List.mem_cons] at hp
    rcases hp with h1 | h2
    · rw [h1]; exact ⟨rfl, rfl⟩
    · exact ih _ p h2

lemma exprRowsFor_ok (inp : EnclaveInput) (cs : EnclaveCodeSetRow)
    (part : List ExprItemsPayload) (h : exprRowsFor inp cs = Except.ok part) :
    ∃ l, (concept_set_version_item_dict inp.items).lookup cs.codeset_id = some l ∧
      part.length = l.length ∧
      (∀ (k : Nat) (hk : k < part.length),
        (part.get ⟨k, hk⟩).codeList = (l.take (k + 1)).map codePair) ∧
      (∀ p ∈ part, p.versionRef = toString cs.codeset_id ∧ p.codesetId = cs.codeset_id) := by
  simp only [exprRowsFor] at h
  cases hl : (concept_set_version_item_dict inp.items).lookup cs.codeset_id <;> rw [hl] at h
  · simp at h
  case some l =>
    cases l with
    | nil =>
      simp only [Except.ok.injEq] at h
      subst h
      exact ⟨[], rfl, rfl, by intro k hk; simp at hk, by intro p hp; simp at hp⟩
    | cons first rest =>
      simp only [Except.ok.injEq] at h
      subst h
      refine ⟨first :: rest, rfl, exprLoop_length _ _ _ _ _, ?_, ?_⟩
      · intro k hk
        rw [exprLoop_get cs.codeset_id cs.concept_set_name first (first :: rest) [] k hk]
        simp [get_cs_version_expression_data]
      · intro p hp
        exact exprLoop_mem _ _ _ _ _ p hp

lemma exprRows_flatten (inp : EnclaveInput) (rows : List ExprItemsPayload)
    (h : code_set_expression_items_json_all_rows inp = Except.ok rows) :
    ∃ parts, mapE (exprRowsFor inp) inp.codeSets = Except.ok parts ∧ rows = parts.flatten := by
  simp only [code_set_expression_items_json_all_rows] at h
  cases hm : mapE (exprRowsFor inp) inp.codeSets <;> rw [hm] at h
  · simp at h
  · simp only [Except.ok.injEq] at h
    exact ⟨_, rfl, h.symm⟩

lemma exprRows_mem_versionRef (inp : EnclaveInput) (rows : List ExprItemsPayload)
    (h : code_set_expression_items_json_all_rows inp = Except.ok rows) :
    ∀ p ∈ rows, p.versionRef = toString p.codesetId := by
  obtain ⟨parts, hm, hflat⟩ := exprRows_flatten inp rows h
  intro p hp
  rw [hflat] at hp
  obtain ⟨part, hpart, hpp⟩ := List.mem_flatten.mp hp
  obtain ⟨cs, _, hok⟩ := mapE_ok_mem _ inp.codeSets parts hm part hpart
  obtain ⟨l, _, _, _, hmem⟩ := exprRowsFor_ok inp cs part hok
  obtain ⟨h1, h2⟩ := hmem p hpp
  rw [h1, h2]

lemma pyIndex_zero_head (l : List α) (a : α) (h : l.head? = some a) :
    pyIndex l 0 = Except.ok a := by
  cases l with
  | nil => simp at h
  | cons x t =>
    simp only [List.head?_cons, Option.some.injEq] at h
    rw [← h]
    rfl

lemma pyIndex_zero_mem (l : List α) (a : α) (h : pyIndex l 0 = Except.ok a) : a ∈ l := by
  cases l with
  | nil => simp [pyIndex] at h
  | cons x t =>
    have : Except.ok (ε := PyError) x = Except.ok a := h
    simp only [Except.ok.injEq] at this
    rw [← this]
    exact List.mem_cons_self _ _

/-- Decomposition of a successful run: the three POSTs happen in the fixed
order container, version, expression-items, the last one carrying the
first expression payload rewritten with the server-assigned version id. -/
lemma run_ok (env : EnclaveEnv) (inp : EnclaveInput) (rows : List ExprItemsPayload)
    (h3 : code_set_expression_items_json_all_rows inp = Except.ok rows)
    (h1 : inp.containers ≠ []) (h2 : inp.codeSets ≠ []) (h4 : rows ≠ []) :
    ∃ c0 v0 e0,
      pyIndex (concept_set_container_edited_json_all_rows inp) 0 = Except.ok c0 ∧
      pyIndex (code_set_version_json_all_rows inp) 0 = Except.ok v0 ∧
      pyIndex rows 0 = Except.ok e0 ∧
      run env inp =
        ([EnclavePost.containerPost c0, EnclavePost.versionPost v0,
          EnclavePost.itemsPost (update_cs_version_expression_data_with_codesetid
            (env.versionIdFor v0) e0)],
          Except.ok (env.itemsResponse (update_cs_version_expression_data_with_codesetid
            (env.versionIdFor v0) e0))) := by
  obtain ⟨ct0, restCt, hct⟩ := List.exists_cons_of_ne_nil h1
  obtain ⟨cs0, restCs, hcs⟩ := List.exists_cons_of_ne_nil h2
  obtain ⟨r0, restR, hr⟩ := List.exists_cons_of_ne_nil h4
  have hic : pyIndex (concept_set_container_edited_json_all_rows inp) 0 =
      Except.ok (get_cs_container_data ct0.concept_set_name) := by
    apply pyIndex_zero_head
    simp [concept_set_container_edited_json_all_rows, hct]
  have hiv : pyIndex (code_set_version_json_all_rows inp) 0 =
      Except.ok (get_cs_version_data cs0.concept_set_name cs0.codeset_id cs0.intention
        cs0.limitations cs0.update_message cs0.provenance) := by
    apply pyIndex_zero_head
    simp [code_set_version_json_all_rows, hcs]
  have hie : pyIndex rows 0 = Except.ok r0 := by
    apply pyIndex_zero_head
    simp [hr]
  refine ⟨_, _, _, hic, hiv, hie, ?_⟩
  simp only [run, h3, hic, hiv, hie]

/-- Claim C2: in a run whose three payload lists are non-empty, the stages
execute in the fixed order container, version, expression-items, and the
expression-items payload submitted in stage 3 has its version-reference
field equal to the version id the remote service assigned in stage 2 —
not the pre-sequence locally synthesized codeset id, which is what the
payload held before the rewrite. -/
theorem submission_sequence (env : EnclaveEnv) (inp : EnclaveInput)
    (rows : List ExprItemsPayload)
    (h3 : code_set_expression_items_json_all_rows inp = Except.ok rows)
    (h1 : inp.containers ≠ []) (h2 : inp.codeSets ≠ []) (h4 : rows ≠ []) :
    ∃ c0 v0 e0,
      pyIndex (concept_set_container_edited_json_all_rows inp) 0 = Except.ok c0 ∧
      pyIndex (code_set_version_json_all_rows inp) 0 = Except.ok v0 ∧
      pyIndex rows 0 = Except.ok e0 ∧
      run env inp =
        ([EnclavePost.containerPost c0, EnclavePost.versionPost v0,
          EnclavePost.itemsPost (update_cs_version_expression_data_with_codesetid
            (env.versionIdFor v0) e0)],
          Except.ok (env.itemsResponse (update_cs_version_expression_data_with_codesetid
            (env.versionIdFor v0) e0))) ∧
      (update_cs_version_expression_data_with_codesetid (env.versionIdFor v0) e0).versionRef =
        env.versionIdFor v0 ∧
      e0.versionRef = toString e0.codesetId ∧
      (env.versionIdFor v0 ≠ toString e0.codesetId →
        (update_cs_version_expression_data_with_codesetid (env.versionIdFor v0) e0).versionRef ≠
          e0.versionRef) := by
  obtain ⟨c0, v0, e0, hic, hiv, hie, hrun⟩ := run_ok env inp rows h3 h1 h2 h4
  have href : e0.versionRef = toString e0.codesetId :=
    exprRows_mem_versionRef inp rows h3 e0 (pyIndex_zero_mem rows e0 hie)
  refine ⟨c0, v0, e0, hic, hiv, hie, hrun, rfl, href, ?_⟩
  intro hne
  simp only [update_cs_version_expression_data_with_codesetid, href]
  exact hne

/-- Claim C10: for every code_sets row whose codeset has the item bucket
l, the expression-items list receives exactly l.length payloads for that
code set, the k-th (1-based) holding exactly the first k codeSystem:code
pair strings of the bucket in input order; and the payload rewritten and
submitted in stage 3 is the FIRST element of the whole list, whose code
list holds only the first pair of the first code set. -/
theorem expression_items_accumulation (inp : EnclaveInput) (rows : List ExprItemsPayload)
    (h : code_set_expression_items_json_all_rows inp = Except.ok rows) :
    (∃ parts, mapE (exprRowsFor inp) inp.codeSets = Except.ok parts ∧ rows = parts.flatten) ∧
    (∀ cs ∈ inp.codeSets, ∃ l,
      (concept_set_version_item_dict inp.items).lookup cs.codeset_id = some l ∧
      ∃ part, exprRowsFor inp cs = Except.ok part ∧ part.length = l.length ∧
        ∀ (k : Nat) (hk : k < part.length),
          (part.get ⟨k, hk⟩).codeList = (l.take (k + 1)).map codePair) ∧
    (∀ (cs0 : EnclaveCodeSetRow) (restCs : List EnclaveCodeSetRow)
       (l0 : List EnclaveItemRow),
      inp.codeSets = cs0 :: restCs →
      (concept_set_version_item_dict inp.items).lookup cs0.codeset_id = some l0 →
      l0 ≠ [] →
      ∃ r0 restR, rows = r0 :: restR ∧ r0.codeList = (l0.take 1).map codePair ∧
        ∀ (env : EnclaveEnv), inp.containers ≠ [] →
          ∃ c0 v0,
            run env inp =
              ([EnclavePost.containerPost c0, EnclavePost.versionPost v0,
                EnclavePost.itemsPost (update_cs_version_expression_data_with_codesetid
                  (env.versionIdFor v0) r0)],
                Except.ok (env.itemsResponse (update_cs_version_expression_data_with_codesetid
                  (env.versionIdFor v0) r0)))) := by
  obtain ⟨parts, hm, hflat⟩ := exprRows_flatten inp rows h
  refine ⟨⟨parts, hm, hflat⟩, ?_, ?_⟩
  · intro cs hcs
    obtain ⟨part, hok⟩ := mapE_ok_of_mem _ inp.codeSets parts hm cs hcs
    obtain ⟨l, hl, hlen, hget, _⟩ := exprRowsFor_ok inp cs part hok
    exact ⟨l, hl, part, hok, hlen, hget⟩
  · intro cs0 restCs l0 hcs hl0 hl0ne
    have hcs0mem : cs0 ∈ inp.codeSets := by rw [hcs]; exact List.mem_cons_self _ _
    obtain ⟨part0, hok0⟩ := mapE_ok_of_mem _ inp.codeSets parts hm cs0 hcs0mem
    obtain ⟨l, hl, hlen, hget, _⟩ := exprRowsFor_ok inp cs0 part0 hok0
    have hll : l = l0 := by
      rw [hl0] at hl
      injection hl with h'
      exact h'.symm
    rw [hll] at hlen hget
    have hpart0ne : part0 ≠ [] := by
      intro hcontra
      rw [hcontra] at hlen
      simp only [List.length_nil] at hlen
      exact hl0ne (List.length_eq_zero.mp hlen.symm)
    obtain ⟨p0, prest, hp0⟩ := List.exists_cons_of_ne_nil hpart0ne
    have hparts : ∃ partsRest, parts = part0 :: partsRest := by
      cases hparts0 : parts with
      | nil =>
        rw [hparts0] at hm
        rw [hcs] at hm
        simp only [mapE] at hm
        cases hx : exprRowsFor inp cs0 <;> rw [hx] at hm
        · simp at hm
        · cases hy : mapE (exprRowsFor inp) restCs <;> rw [hy] at hm <;> simp at hm
      | cons q qrest =>
        rw [hparts0] at hm
        rw [hcs] at hm
        simp only [mapE] at hm
        cases hx : exprRowsFor inp cs0 <;> rw [hx] at hm
        · simp at hm
        · cases hy : mapE (exprRowsFor inp) restCs <;> rw [hy] at hm
          · simp at hm
          · simp only [Except.ok.injEq, List.cons.injEq] at hm
            rw [hok0] at hx
            simp only [Except.ok.injEq] at hx
            exact ⟨qrest, by rw [hx, hm.1]⟩
    obtain ⟨partsRest, hpr⟩ := hparts
    have hrows : rows = p0 :: (prest ++ partsRest.flatten) := by
      rw [hflat, hpr, hp0]
      simp
    have hcode : p0.codeList = (l0.take 1).map codePair := by
      have h0 : (0 : Nat) < part0.length := by rw [hp0]; simp
      have hval := hget 0 h0
      have hgp : part0.get ⟨0, h0⟩ = p0 := by simp [hp0]
      rw [hgp] at hval
      simpa using hval
    refine ⟨p0, prest ++ partsRest.flatten, hrows, hcode, ?_⟩
    intro env h1
    have h2 : inp.codeSets ≠ [] := by rw [hcs]; simp
    have h4 : rows ≠ [] := by rw [hrows]; simp
    obtain ⟨c0, v0, e0, hic, hiv, hie, hrun⟩ := run_ok env inp rows h h1 h2 h4
    have he0 : e0 = p0 := by
      rw [hrows] at hie
      have : Except.ok (ε := PyError) p0 = Except.ok e0 := hie
      simp only [Except.ok.injEq] at this
      exact this.symm
    subst he0
    exact ⟨c0, v0, hrun⟩

/-- A concrete enclave input: one container, one code set with two item
rows. -/
def eInp : EnclaveInput :=
  EnclaveInput.mk
    [EnclaveContainerRow.mk "[VSAC Bulk-Import test1] X"]
    [EnclaveCodeSetRow.mk 101 "[VSAC Bulk-Import test1] X" "intent" "lim" "Initial version."
      "prov"]
    [EnclaveItemRow.mk 101 "c1" "SNOMEDCT" false true false "Generated from VSAC export",
     EnclaveItemRow.mk 101 "c2" "SNOMEDCT" false true false "Generated from VSAC export"]

/-- A stub remote service assigning version id V123. -/
def eEnv : EnclaveEnv := EnclaveEnv.mk (fun _ => "V123") (fun _ => "validated")

/-- The expression payload list the concrete input yields (the build
succeeds, see the rfl proofs below). -/
def eRows : List ExprItemsPayload :=
  (code_set_expression_items_json_all_rows eInp).toOption.getD []

/-- Witness for submission_sequence against the stub remote service. -/
theorem submission_sequence_witness :
    ∃ c0 v0 e0,
      pyIndex (concept_set_container_edited_json_all_rows eInp) 0 = Except.ok c0 ∧
      pyIndex (code_set_version_json_all_rows eInp) 0 = Except.ok v0 ∧
      pyIndex eRows 0 = Except.ok e0 ∧
      run eEnv eInp =
        ([EnclavePost.containerPost c0, EnclavePost.versionPost v0,
          EnclavePost.itemsPost (update_cs_version_expression_data_with_codesetid
            (eEnv.versionIdFor v0) e0)],
          Except.ok (eEnv.itemsResponse (update_cs_version_expression_data_with_codesetid
            (eEnv.versionIdFor v0) e0))) ∧
      (update_cs_version_expression_data_with_codesetid (eEnv.versionIdFor v0) e0).versionRef =
        eEnv.versionIdFor v0 ∧
      e0.versionRef = toString e0.codesetId ∧
      (eEnv.versionIdFor v0 ≠ toString e0.codesetId →
        (update_cs_version_expression_data_with_codesetid (eEnv.versionIdFor v0) e0).versionRef ≠
          e0.versionRef) :=
  submission_sequence eEnv eInp eRows rfl (by decide) (by decide) (by decide)

/-- Witness for expression_items_accumulation at the concrete input. -/
theorem expression_items_accumulation_witness :
    (∃ parts, mapE (exprRowsFor eInp) eInp.codeSets = Except.ok parts ∧
      eRows = parts.flatten) ∧
    (∀ cs ∈ eInp.codeSets, ∃ l,
      (concept_set_version_item_dict eInp.items).lookup cs.codeset_id = some l ∧
      ∃ part, exprRowsFor eInp cs = Except.ok part ∧ part.length = l.length ∧
        ∀ (k : Nat) (hk : k < part.length),
          (part.get ⟨k, hk⟩).codeList = (l.take (k + 1)).map codePair) ∧
    (∀ (cs0 : EnclaveCodeSetRow) (restCs : List EnclaveCodeSetRow)
       (l0 : List EnclaveItemRow),
      eInp.codeSets = cs0 :: restCs →
      (concept_set_version_item_dict eInp.items).lookup cs0.codeset_id = some l0 →
      l0 ≠ [] →
      ∃ r0 restR, eRows = r0 :: restR ∧ r0.codeList = (l0.take 1).map codePair ∧
        ∀ (env : EnclaveEnv), eInp.containers ≠ [] →
          ∃ c0 v0,
            run env eInp =
              ([EnclavePost.containerPost c0, EnclavePost.versionPost v0,
                EnclavePost.itemsPost (update_cs_version_expression_data_with_codesetid
                  (env.versionIdFor v0) r0)],
                Except.ok (env.itemsResponse (update_cs_version_expression_data_with_codesetid
                  (env.versionIdFor v0) r0)))) :=
  expression_items_accumulation eInp eRows rfl

end VST
